import Mathlib

/-!
omci-sim: OMCI message handlers and per-ONU state

A shallow embedding of `omci_state.go` and `omci_handlers.go`.

* Go's `uint8`/`uint16` values are natural numbers; every arithmetic step of the
  source is followed by an explicit reduction modulo `2^8` or `2^16`.
* The process-wide `OnuOmciStateMap` is passed explicitly: a handler takes the
  map and returns the map it leaves behind.
* A handler call ends in one of three ways: it returns a frame, it returns an
  error, or the Go runtime panics (nil dereference).
-/

namespace OmciSim

set_option linter.unusedVariables false
set_option maxRecDepth 100000

/-! ## Machine integers -/

/-- Conversion to Go's `uint8`. -/
def uint8 (n : Nat) : Nat := n % 2 ^ 8

/-- Conversion to Go's `uint16`. -/
def uint16 (n : Nat) : Nat := n % 2 ^ 16

/-! ## Data model (`omci_state.go`) -/

/-- The lifecycle flag `istate`; `INCOMPLETE` is the zero value. -/
inductive istate where
  | INCOMPLETE
  | DONE
  deriving DecidableEq, Repr

/-- Key of the state map: `OnuKey{intfId, onuId}`. -/
structure OnuKey where
  IntfId : Nat
  OnuId : Nat
  deriving DecidableEq, Repr

/-- The struct `OnuOmciState`.

Modelled from the spec: the field `priorQInstance` is read and written by
`mibUploadNext` but is missing from the struct declaration in `omci_state.go`;
it is an 8-bit counter like its siblings (it is stored into a frame byte), and
its zero value is 0. -/
structure OnuOmciState where
  gemPortId : Nat
  mibUploadCtr : Nat
  extraMibUploadCtr : Nat
  uniGInstance : Nat
  tcontInstance : Nat
  pptpInstance : Nat
  priorQInstance : Nat
  state : istate
  deriving DecidableEq, Repr

/-- Every field lies in the range of its Go type. -/
def OnuOmciState.WF (s : OnuOmciState) : Prop :=
  s.gemPortId < 2 ^ 16 ∧ s.mibUploadCtr < 2 ^ 16 ∧ s.extraMibUploadCtr < 2 ^ 16 ∧
  s.uniGInstance < 2 ^ 8 ∧ s.tcontInstance < 2 ^ 8 ∧ s.pptpInstance < 2 ^ 8 ∧
  s.priorQInstance < 2 ^ 8

instance (s : OnuOmciState) : Decidable s.WF := by
  unfold OnuOmciState.WF
  infer_instance

/-- The map `OnuOmciStateMap`, from keys to the state record each pointer refers to. -/
abbrev OnuOmciStateMap := OnuKey → Option OnuOmciState

/-- Writing through the pointer stored under `key`. -/
def OnuOmciStateMap.put (m : OnuOmciStateMap) (key : OnuKey) (s : OnuOmciState) :
    OnuOmciStateMap :=
  fun k => if k = key then some s else m k

/-- Constructor `NewOnuOmciState`: fields the composite literal leaves out take their zero value. -/
def NewOnuOmciState : OnuOmciState :=
  { gemPortId := 0, mibUploadCtr := 0, extraMibUploadCtr := 0, uniGInstance := 1,
    tcontInstance := 0, pptpInstance := 1, priorQInstance := 0, state := istate.INCOMPLETE }

/-- Method `ResetOnuOmciState`: six assignments, nothing else is touched. -/
def ResetOnuOmciState (s : OnuOmciState) : OnuOmciState :=
  { s with
    mibUploadCtr := 0
    extraMibUploadCtr := 0
    gemPortId := 0
    uniGInstance := 1
    tcontInstance := 0
    pptpInstance := 1 }

/-- Function `GetOnuOmciState`. -/
def GetOnuOmciState (m : OnuOmciStateMap) (intfId onuId : Nat) : istate :=
  match m ⟨intfId, onuId⟩ with
  | some onu => onu.state
  | none => istate.INCOMPLETE

/-- The errors the package builds with `errors.New`, by message. -/
inductive OmciError where
  /-- Message "%v - Invalid MibUpload request: %d, extras: %d". -/
  | invalidMibUpload (key : OnuKey) (mibUploadCtr extras : Nat)
  /-- Message "ONU Key Error". -/
  | onuKeyError
  /-- Message "ONU (intfid:%d, onuid:%d) - Not DONE (GemportID is not set)". -/
  | notDone (intfId onuId : Nat)
  /-- Message "ONU (intfid:%d, onuid:%d) - Failed to find a key in OnuOmciStateMap". -/
  | keyNotFound (intfId onuId : Nat)
  deriving DecidableEq, Repr

/-- Function `GetGemPortId`: the returned pair `(uint16, error)` together with the map after the call. -/
def GetGemPortId (m : OnuOmciStateMap) (intfId onuId : Nat) :
    Except OmciError Nat × OnuOmciStateMap :=
  match m ⟨intfId, onuId⟩ with
  | some st =>
    if st.state ≠ istate.DONE then
      (.error (.notDone intfId onuId), m)
    else
      (.ok st.gemPortId, m)
  | none => (.error (.keyNotFound intfId onuId), m)

/-! ## Handlers (`omci_handlers.go`) -/

/-- Type `OmciClass`, a managed-entity class number. -/
abbrev OmciClass := Nat

/-- Type `OmciContent`, the message contents.

Its declaration is outside the two source files. The handlers read `content[0]`,
`content[1]` and `content[:2]` with no length test, the way a fixed-size byte array is
read, so a content is a byte array holding at least those two bytes: `b0` is
`content[0]`, `b1` is `content[1]` and `tail` is `content[2:]`. -/
structure OmciContent where
  b0 : Nat
  b1 : Nat
  tail : List Nat
  deriving DecidableEq, Repr

/-- Constants the handlers use that are declared outside the two source files. -/
structure Consts where
  GEMPortNetworkCTP : OmciClass
  NumMibUploads : Nat

/-- How a handler call ends: `([]byte, nil)`, `(nil, error)`, or a runtime panic. -/
inductive Result where
  | ok (pkt : List Nat) (m : OnuOmciStateMap)
  | error (e : OmciError) (m : OnuOmciStateMap)
  | panic

/-- The frame of a result, if one was returned. -/
def Result.pkt? : Result → Option (List Nat)
  | .ok pkt _ => some pkt
  | _ => none

/-- The error of a result, if one was returned. -/
def Result.err? : Result → Option OmciError
  | .error e _ => some e
  | _ => none

/-- The map a call leaves behind; a panicking call has written nothing. -/
def Result.map (m₀ : OnuOmciStateMap) : Result → OnuOmciStateMap
  | .ok _ m => m
  | .error _ m => m
  | .panic => m₀

/-- Go library function `binary.BigEndian.Uint16(b)`, that is `uint16(b[1]) | uint16(b[0])<<8`. -/
def BigEndianUint16 (b0 b1 : Nat) : Nat :=
  uint16 (uint16 b1 ||| uint16 (uint16 b0 <<< 8))

/-- Acknowledgement frame built by mibReset. -/
def mibResetPkt : List Nat :=
  [0x00, 0x00, 0x00, 0x00, 0x00, 0x02, 0x00, 0x00,
   0x00, 0x00, 0x00, 0x00, 0x00, 0x00, 0x00, 0x00,
   0x00, 0x00, 0x00, 0x00, 0x00, 0x00, 0x00, 0x00,
   0x00, 0x00, 0x00, 0x00, 0x00, 0x00, 0x00, 0x00,
   0x00, 0x00, 0x00, 0x00, 0x00, 0x00, 0x00, 0x00,
   0x00, 0x00, 0x00, 0x00, 0x00, 0x00, 0x00, 0x00]

/-- Frame built by mibUpload before the count byte is stamped. -/
def mibUploadPkt : List Nat :=
  [0x00, 0x00, 0x00, 0x00, 0x00, 0x02, 0x00, 0x00,
   0x00, 0x00, 0x00, 0x00, 0x00, 0x00, 0x00, 0x00,
   0x00, 0x00, 0x00, 0x00, 0x00, 0x00, 0x00, 0x00,
   0x00, 0x00, 0x00, 0x00, 0x00, 0x00, 0x00, 0x00,
   0x00, 0x00, 0x00, 0x00, 0x00, 0x00, 0x00, 0x00,
   0x00, 0x00, 0x00, 0x00, 0x00, 0x00, 0x00, 0x00]

/-- Template of case 0: ONT Data (2). -/
def pktOntData : List Nat :=
  [0x00, 0x00, 0x00, 0x00, 0x00, 0x02, 0x00, 0x00,
   0x00, 0x02, 0x00, 0x00, 0x80, 0x00, 0x00, 0x00,
   0x00, 0x00, 0x00, 0x00, 0x00, 0x00, 0x00, 0x00,
   0x00, 0x00, 0x00, 0x00, 0x00, 0x00, 0x00, 0x00,
   0x00, 0x00, 0x00, 0x00, 0x00, 0x00, 0x00, 0x00,
   0x00, 0x00, 0x00, 0x00, 0x00, 0x00, 0x00, 0x00]

/-- Template of case 1: Circuit Pack (6), variant 1. -/
def pktCircuitPack1 : List Nat :=
  [0x00, 0x00, 0x00, 0x00, 0x00, 0x02, 0x00, 0x00,
   0x00, 0x06, 0x01, 0x01, 0xf0, 0x00, 0x2f, 0x04,
   0x49, 0x53, 0x4b, 0x54, 0x71, 0xe8, 0x00, 0x80,
   0x00, 0x00, 0x00, 0x00, 0x00, 0x00, 0x00, 0x00,
   0x00, 0x00, 0x00, 0x00, 0x00, 0x0c, 0x00, 0x00,
   0x00, 0x00, 0x00, 0x00, 0x00, 0x00, 0x00, 0x00]

/-- Template of case 2: Circuit Pack (6), variant 2. -/
def pktCircuitPack2 : List Nat :=
  [0x00, 0x00, 0x00, 0x00, 0x00, 0x02, 0x00, 0x00,
   0x00, 0x06, 0x01, 0x01, 0x0f, 0x00, 0x42, 0x52,
   0x43, 0x4d, 0x00, 0x00, 0x00, 0x00, 0x00, 0x00,
   0x00, 0x00, 0x00, 0x00, 0x00, 0x00, 0x00, 0x00,
   0x00, 0x00, 0x00, 0x00, 0x00, 0x00, 0x00, 0x00,
   0x00, 0x00, 0x00, 0x00, 0x00, 0x00, 0x00, 0x00]

/-- Template of case 3: Circuit Pack (6), variant 3. -/
def pktCircuitPack3 : List Nat :=
  [0x00, 0x00, 0x00, 0x00, 0x00, 0x02, 0x00, 0x00,
   0x00, 0x06, 0x01, 0x01, 0x00, 0xf8, 0x20, 0x20,
   0x20, 0x20, 0x20, 0x20, 0x20, 0x20, 0x20, 0x20,
   0x20, 0x20, 0x20, 0x20, 0x20, 0x20, 0x20, 0x20,
   0x20, 0x20, 0x00, 0x00, 0x08, 0x00, 0x00, 0x00,
   0x00, 0x00, 0x00, 0x00, 0x00, 0x00, 0x00, 0x00]

/-- Template of case 4: Circuit Pack (6), variant 4. -/
def pktCircuitPack4 : List Nat :=
  [0x00, 0x00, 0x00, 0x00, 0x00, 0x02, 0x00, 0x00,
   0x00, 0x06, 0x01, 0x01, 0x00, 0x04, 0x00, 0x00,
   0x00, 0x00, 0x00, 0x00, 0x00, 0x00, 0x00, 0x00,
   0x00, 0x00, 0x00, 0x00, 0x00, 0x00, 0x00, 0x00,
   0x00, 0x00, 0x00, 0x00, 0x00, 0x00, 0x00, 0x00,
   0x00, 0x00, 0x00, 0x00, 0x00, 0x00, 0x00, 0x00]

/-- Template of case 5: Circuit Pack (6), variant 5. -/
def pktCircuitPack5 : List Nat :=
  [0x00, 0x00, 0x00, 0x00, 0x00, 0x02, 0x00, 0x00,
   0x00, 0x06, 0x01, 0x80, 0xf0, 0x00, 0xee, 0x01,
   0x49, 0x53, 0x4b, 0x54, 0x71, 0xe8, 0x00, 0x80,
   0x00, 0x00, 0x00, 0x00, 0x00, 0x00, 0x00, 0x00,
   0x00, 0x00, 0x00, 0x00, 0x00, 0x0c, 0x00, 0x00,
   0x00, 0x00, 0x00, 0x00, 0x00, 0x00, 0x00, 0x00]

/-- Template of case 6: Circuit Pack (6), variant 6. -/
def pktCircuitPack6 : List Nat :=
  [0x00, 0x00, 0x00, 0x00, 0x00, 0x02, 0x00, 0x00,
   0x00, 0x06, 0x01, 0x80, 0x0f, 0x00, 0x42, 0x52,
   0x43, 0x4d, 0x00, 0x00, 0x00, 0x00, 0x00, 0x00,
   0x00, 0x00, 0x00, 0x00, 0x00, 0x00, 0x00, 0x00,
   0x00, 0x00, 0x00, 0x00, 0x00, 0x00, 0x00, 0x00,
   0x00, 0x00, 0x00, 0x00, 0x00, 0x00, 0x00, 0x00]

/-- Template of case 7: Circuit Pack (6), variant 7. -/
def pktCircuitPack7 : List Nat :=
  [0x00, 0x00, 0x00, 0x00, 0x00, 0x02, 0x00, 0x00,
   0x00, 0x06, 0x01, 0x80, 0x00, 0xf8, 0x20, 0x20,
   0x20, 0x20, 0x20, 0x20, 0x20, 0x20, 0x20, 0x20,
   0x20, 0x20, 0x20, 0x20, 0x20, 0x20, 0x20, 0x20,
   0x20, 0x20, 0x00, 0x08, 0x40, 0x10, 0x00, 0x00,
   0x00, 0x00, 0x00, 0x00, 0x00, 0x00, 0x00, 0x00]

/-- Template of case 8: Circuit Pack (6), variant 8. -/
def pktCircuitPack8 : List Nat :=
  [0x00, 0x00, 0x00, 0x00, 0x00, 0x02, 0x00, 0x00,
   0x00, 0x06, 0x01, 0x80, 0x00, 0x04, 0x00, 0x00,
   0x00, 0x00, 0x00, 0x00, 0x00, 0x00, 0x00, 0x00,
   0x00, 0x00, 0x00, 0x00, 0x00, 0x00, 0x00, 0x00,
   0x00, 0x00, 0x00, 0x00, 0x00, 0x00, 0x00, 0x00,
   0x00, 0x00, 0x00, 0x00, 0x00, 0x00, 0x00, 0x00]

/-- Template of cases 9..12: PPTP (11). -/
def pktPptp : List Nat :=
  [0x00, 0x00, 0x00, 0x00, 0x00, 0x02, 0x00, 0x00,
   0x00, 0x0b, 0x01, 0x01, 0xff, 0xfe, 0x00, 0x2f,
   0x00, 0x00, 0x00, 0x00, 0x03, 0x05, 0xee, 0x00,
   0x00, 0x00, 0x02, 0x00, 0x00, 0x00, 0x00, 0x00,
   0x00, 0x00, 0x00, 0x00, 0x00, 0x00, 0x00, 0x00,
   0x00, 0x00, 0x00, 0x00, 0x00, 0x00, 0x00, 0x00]

/-- Template of cases 13..20: T-CONT (262). -/
def pktTcont : List Nat :=
  [0x00, 0x00, 0x00, 0x00, 0x00, 0x02, 0x00, 0x00,
   0x01, 0x06, 0x80, 0x00, 0xe0, 0x00, 0xff, 0xff,
   0x01, 0x01, 0x00, 0x00, 0x00, 0x00, 0x00, 0x00,
   0x00, 0x00, 0x00, 0x00, 0x00, 0x00, 0x00, 0x00,
   0x00, 0x00, 0x00, 0x00, 0x00, 0x00, 0x00, 0x00,
   0x00, 0x00, 0x00, 0x00, 0x00, 0x00, 0x00, 0x00]

/-- Template of case 21: ANI-G (263). -/
def pktAniG : List Nat :=
  [0x00, 0x00, 0x00, 0x00, 0x00, 0x02, 0x00, 0x00,
   0x01, 0x07, 0x80, 0x01, 0xff, 0xff, 0x01, 0x00,
   0x08, 0x00, 0x30, 0x00, 0x00, 0x05, 0x09, 0x00,
   0x00, 0xe0, 0x54, 0xff, 0xff, 0x00, 0x00, 0x0c,
   0x63, 0x81, 0x81, 0x00, 0x00, 0x00, 0x00, 0x00,
   0x00, 0x00, 0x00, 0x00, 0x00, 0x00, 0x00, 0x00]

/-- Template of cases 22..25: UNI-G (264). -/
def pktUniG : List Nat :=
  [0x00, 0x00, 0x00, 0x00, 0x00, 0x02, 0x00, 0x00,
   0x01, 0x08, 0x01, 0x01, 0xf8, 0x00, 0x00, 0x00,
   0x00, 0x00, 0x00, 0x00, 0x00, 0x00, 0x00, 0x00,
   0x00, 0x00, 0x00, 0x00, 0x00, 0x00, 0x00, 0x00,
   0x00, 0x00, 0x00, 0x00, 0x00, 0x00, 0x00, 0x00,
   0x00, 0x00, 0x00, 0x00, 0x00, 0x00, 0x00, 0x00]

/-- Template of cases 26, 30, .., 54: priority queue with mask, downstream. -/
def pktPriorQMaskDown : List Nat :=
  [0x00, 0x42, 0x2e, 0x0a, 0x00, 0x02, 0x00, 0x00,
   0x01, 0x15, 0x00, 0x00, 0x00, 0x0f, 0xff, 0xff,
   0xff, 0xff, 0xff, 0xff, 0xff, 0xff, 0xff, 0xff,
   0x09, 0x00, 0x00, 0x00, 0x00, 0x00, 0x00, 0x00,
   0x00, 0x00, 0x00, 0x00, 0x00, 0x00, 0x00, 0x00,
   0x00, 0x00, 0x00, 0x00, 0x00, 0x00, 0x00, 0x00]

/-- Template of cases 27, 31, .., 55: priority queue with attribute list, downstream. -/
def pktPriorQAttrDown : List Nat :=
  [0x00, 0x43, 0x2e, 0x0a, 0x00, 0x02, 0x00, 0x00,
   0x01, 0x15, 0x00, 0x00, 0xff, 0xf0, 0x00, 0x01,
   0x00, 0x01, 0x00, 0x00, 0x00, 0x00, 0x00, 0x01,
   0x20, 0x00, 0x00, 0x01, 0x20, 0x01, 0x00, 0x01,
   0x00, 0x00, 0x00, 0x00, 0x00, 0x00, 0x00, 0x00,
   0x00, 0x00, 0x00, 0x00, 0x00, 0x00, 0x00, 0x00]

/-- Template of cases 28, 32, .., 56: priority queue with mask, upstream. -/
def pktPriorQMaskUp : List Nat :=
  [0x00, 0x42, 0x2e, 0x0a, 0x00, 0x02, 0x00, 0x00,
   0x01, 0x15, 0x80, 0x00, 0x00, 0x0f, 0xff, 0xff,
   0xff, 0xff, 0xff, 0xff, 0xff, 0xff, 0xff, 0xff,
   0x09, 0x00, 0x00, 0x00, 0x00, 0x00, 0x00, 0x00,
   0x00, 0x00, 0x00, 0x00, 0x00, 0x00, 0x00, 0x00,
   0x00, 0x00, 0x00, 0x00, 0x00, 0x00, 0x00, 0x00]

/-- Template of cases 29, 33, .., 57: priority queue with attribute list, upstream. -/
def pktPriorQAttrUp : List Nat :=
  [0x00, 0x43, 0x2e, 0x0a, 0x00, 0x02, 0x00, 0x00,
   0x01, 0x15, 0x80, 0x00, 0xff, 0xf0, 0x00, 0x01,
   0x00, 0x01, 0x00, 0x00, 0x00, 0x00, 0x00, 0x80,
   0x20, 0x00, 0x00, 0x80, 0x20, 0x01, 0x00, 0x01,
   0x00, 0x00, 0x00, 0x00, 0x00, 0x00, 0x00, 0x00,
   0x00, 0x00, 0x00, 0x00, 0x00, 0x00, 0x00, 0x00]

/-- Template of cases 58..65: Traffic Scheduler. -/
def pktTrafficScheduler : List Nat :=
  [0x02, 0xa4, 0x2e, 0x0a, 0x00, 0x02, 0x00, 0x00,
   0x01, 0x16, 0x80, 0x00, 0xf0, 0x00, 0x80, 0x00,
   0x00, 0x00, 0x02, 0x00, 0x00, 0x00, 0x00, 0x00,
   0x00, 0x00, 0x00, 0x00, 0x00, 0x00, 0x00, 0x00,
   0x00, 0x00, 0x00, 0x00, 0x00, 0x00, 0x00, 0x00,
   0x00, 0x00, 0x00, 0x00, 0x00, 0x00, 0x00, 0x00]

/-- Template of case 66: ONT-2G. -/
def pktOnt2G : List Nat :=
  [0x00, 0x16, 0x2e, 0x0a, 0x00, 0x02, 0x00, 0x00,
   0x01, 0x01, 0x00, 0x00, 0x07, 0xfc, 0x00, 0x40,
   0x08, 0x01, 0x00, 0x08, 0x00, 0x00, 0x00, 0x00,
   0x00, 0x7f, 0x00, 0x00, 0x3f, 0x00, 0x01, 0x00,
   0x00, 0x00, 0x00, 0x00, 0x00, 0x00, 0x00, 0x00,
   0x00, 0x00, 0x00, 0x00, 0x00, 0x00, 0x00, 0x00]

/-- Frame returned by set. -/
def setPkt : List Nat :=
  [0x00, 0x00, 0x00, 0x00, 0x01, 0x00, 0x00, 0x00,
   0x00, 0x00, 0x00, 0x00, 0x00, 0x00, 0x00, 0x00,
   0x00, 0x00, 0x00, 0x00, 0x00, 0x00, 0x00, 0x00,
   0x00, 0x00, 0x00, 0x00, 0x00, 0x00, 0x00, 0x00,
   0x00, 0x00, 0x00, 0x00, 0x00, 0x00, 0x00, 0x00,
   0x00, 0x00, 0x00, 0x00, 0x00, 0x00, 0x00, 0x00]

/-- Acknowledgement frame returned by create. -/
def createPkt : List Nat :=
  [0x00, 0x00, 0x00, 0x00, 0x01, 0x10, 0x00, 0x01,
   0x00, 0x00, 0x00, 0x00, 0x00, 0x00, 0x00, 0x00,
   0x00, 0x00, 0x00, 0x00, 0x00, 0x00, 0x00, 0x00,
   0x00, 0x00, 0x00, 0x00, 0x00, 0x00, 0x00, 0x00,
   0x00, 0x00, 0x00, 0x00, 0x00, 0x00, 0x00, 0x00,
   0x00, 0x00, 0x00, 0x00, 0x00, 0x00, 0x00, 0x00]

/-- Frame returned by get. -/
def getPkt : List Nat :=
  [0x00, 0x00, 0x00, 0x00, 0x00, 0x2d, 0x02, 0x01,
   0x00, 0x20, 0xc0, 0x00, 0x00, 0x00, 0x00, 0x00,
   0x00, 0x00, 0x00, 0x00, 0x00, 0x00, 0x00, 0x00,
   0x00, 0x00, 0x00, 0x00, 0x00, 0x00, 0x00, 0x00,
   0x00, 0x00, 0x00, 0x00, 0x00, 0x00, 0x00, 0x00,
   0x00, 0x00, 0x00, 0x00, 0x00, 0x00, 0x00, 0x00]

/-- Frame returned by getAllAlarms. -/
def getAllAlarmsPkt : List Nat :=
  [0x00, 0x00, 0x00, 0x00, 0x00, 0x02, 0x00, 0x00,
   0x00, 0x03, 0x00, 0x00, 0x00, 0x00, 0x00, 0x00,
   0x00, 0x00, 0x00, 0x00, 0x00, 0x00, 0x00, 0x00,
   0x00, 0x00, 0x00, 0x00, 0x00, 0x00, 0x00, 0x00,
   0x00, 0x00, 0x00, 0x00, 0x00, 0x00, 0x00, 0x00,
   0x00, 0x00, 0x00, 0x00, 0x00, 0x00, 0x00, 0x00]

/-- Frame returned by syncTime. -/
def syncTimePkt : List Nat :=
  [0x00, 0x00, 0x00, 0x00, 0x01, 0x00, 0x00, 0x00,
   0x00, 0x00, 0x00, 0x00, 0x00, 0x00, 0x00, 0x00,
   0x00, 0x00, 0x00, 0x00, 0x00, 0x00, 0x00, 0x00,
   0x00, 0x00, 0x00, 0x00, 0x00, 0x00, 0x00, 0x00,
   0x00, 0x00, 0x00, 0x00, 0x00, 0x00, 0x00, 0x00,
   0x00, 0x00, 0x00, 0x00, 0x00, 0x00, 0x00, 0x00]

/-- Frame returned by getAllAlarmsNext. -/
def getAllAlarmsNextPkt : List Nat :=
  [0x00, 0x00, 0x00, 0x00, 0x00, 0x02, 0x00, 0x00,
   0x00, 0x0b, 0x01, 0x02, 0x80, 0x00, 0x00, 0x00,
   0x00, 0x00, 0x00, 0x00, 0x00, 0x00, 0x00, 0x00,
   0x00, 0x00, 0x00, 0x00, 0x00, 0x00, 0x00, 0x00,
   0x00, 0x00, 0x00, 0x00, 0x00, 0x00, 0x00, 0x00,
   0x00, 0x00, 0x00, 0x00, 0x00, 0x00, 0x00, 0x00]

/-- Frame returned by delete. -/
def deletePkt : List Nat :=
  [0x00, 0x00, 0x00, 0x00, 0x00, 0x00, 0x00, 0x00,
   0x00, 0x0b, 0x00, 0x00, 0x80, 0x00, 0x00, 0x00,
   0x00, 0x00, 0x00, 0x00, 0x00, 0x00, 0x00, 0x00,
   0x00, 0x00, 0x00, 0x00, 0x00, 0x00, 0x00, 0x00,
   0x00, 0x00, 0x00, 0x00, 0x00, 0x00, 0x00, 0x00,
   0x00, 0x00, 0x00, 0x00, 0x00, 0x00, 0x00, 0x00]

/-- Frame returned by reboot. -/
def rebootPkt : List Nat :=
  [0x00, 0x00, 0x00, 0x00, 0x00, 0x00, 0x00, 0x00,
   0x00, 0x00, 0x00, 0x00, 0x00, 0x00, 0x00, 0x00,
   0x00, 0x00, 0x00, 0x00, 0x00, 0x00, 0x00, 0x00,
   0x00, 0x00, 0x00, 0x00, 0x00, 0x00, 0x00, 0x00,
   0x00, 0x00, 0x00, 0x00, 0x00, 0x00, 0x00, 0x00,
   0x00, 0x00, 0x00, 0x00, 0x00, 0x00, 0x00, 0x00]


/-- The `switch commandNumber` of `mibUploadNext`, run on the record `state` points to:
the frame and the record after the case body, or `none` when the default case is taken. -/
def mibUploadNextSwitch (commandNumber : Nat) (state : OnuOmciState) :
    Option (List Nat × OnuOmciState) :=
  if commandNumber = 0 then some (pktOntData, state)
  else if commandNumber = 1 then some (pktCircuitPack1, state)
  else if commandNumber = 2 then some (pktCircuitPack2, state)
  else if commandNumber = 3 then some (pktCircuitPack3, state)
  else if commandNumber = 4 then some (pktCircuitPack4, state)
  else if commandNumber = 5 then some (pktCircuitPack5, state)
  else if commandNumber = 6 then some (pktCircuitPack6, state)
  else if commandNumber = 7 then some (pktCircuitPack7, state)
  else if commandNumber = 8 then some (pktCircuitPack8, state)
  else if commandNumber ∈ [9, 10, 11, 12] then
    -- pkt[11] = state.pptpInstance; state.pptpInstance++
    some (pktPptp.set 11 state.pptpInstance,
      { state with pptpInstance := uint8 (state.pptpInstance + 1) })
  else if commandNumber ∈ [13, 14, 15, 16, 17, 18, 19, 20] then
    -- pkt[11] = state.tcontInstance; state.tcontInstance++
    some (pktTcont.set 11 state.tcontInstance,
      { state with tcontInstance := uint8 (state.tcontInstance + 1) })
  else if commandNumber = 21 then some (pktAniG, state)
  else if commandNumber ∈ [22, 23, 24, 25] then
    -- pkt[11] = state.uniGInstance; state.uniGInstance++
    some (pktUniG.set 11 state.uniGInstance,
      { state with uniGInstance := uint8 (state.uniGInstance + 1) })
  else if commandNumber ∈ [26, 30, 34, 38, 42, 46, 50, 54] then
    -- state.priorQInstance++; pkt[11] = state.priorQInstance
    let state := { state with priorQInstance := uint8 (state.priorQInstance + 1) }
    some (pktPriorQMaskDown.set 11 state.priorQInstance, state)
  else if commandNumber ∈ [27, 31, 35, 39, 43, 47, 51, 55] then
    -- pkt[11] = state.priorQInstance; state.tcontInstance--
    -- pkt[24] = state.tcontInstance; pkt[28] = state.tcontInstance
    let pkt := pktPriorQAttrDown.set 11 state.priorQInstance
    let state := { state with tcontInstance := uint8 (state.tcontInstance + 2 ^ 8 - 1) }
    some ((pkt.set 24 state.tcontInstance).set 28 state.tcontInstance, state)
  else if commandNumber ∈ [28, 32, 36, 40, 44, 48, 52, 56] then
    -- pkt[11] = state.priorQInstance
    some (pktPriorQMaskUp.set 11 state.priorQInstance, state)
  else if commandNumber ∈ [29, 33, 37, 41, 45, 49, 53, 57] then
    -- pkt[11] = state.priorQInstance
    -- pkt[24] = state.tcontInstance; pkt[28] = state.tcontInstance
    some (((pktPriorQAttrUp.set 11 state.priorQInstance).set 24 state.tcontInstance).set 28
      state.tcontInstance, state)
  else if commandNumber ∈ [58, 59, 60, 61, 62, 63, 64, 65] then
    -- pkt[15] = state.tcontInstance; state.tcontInstance++
    some (pktTrafficScheduler.set 15 state.tcontInstance,
      { state with tcontInstance := uint8 (state.tcontInstance + 1) })
  else if commandNumber = 66 then some (pktOnt2G, state)
  else none

/-- Handler `mibUploadNext`.

`state := OnuOmciStateMap[key]` is nil for an absent key, and every path through the
function dereferences it (`state.extraMibUploadCtr++` in the default case,
`state.mibUploadCtr++` after every other case, the instance counters inside some cases):
the call then ends in a runtime panic, and nothing has been written before it. -/
def mibUploadNext (class_ : OmciClass) (content : OmciContent) (key : OnuKey)
    (m : OnuOmciStateMap) : Result :=
  match m key with
  | none => .panic
  | some state =>
    let commandNumber := uint16 (uint16 content.b1 ||| uint16 (uint16 content.b0 <<< 8))
    match mibUploadNextSwitch commandNumber state with
    | none =>
      -- default: state.extraMibUploadCtr++; return nil, errors.New(errstr)
      let state := { state with extraMibUploadCtr := uint16 (state.extraMibUploadCtr + 1) }
      .error (.invalidMibUpload key state.mibUploadCtr state.extraMibUploadCtr)
        (m.put key state)
    | some (pkt, state) =>
      -- state.mibUploadCtr++; return pkt, nil
      .ok pkt (m.put key { state with mibUploadCtr := uint16 (state.mibUploadCtr + 1) })

/-- Handler `mibReset`. -/
def mibReset (class_ : OmciClass) (content : OmciContent) (key : OnuKey)
    (m : OnuOmciStateMap) : Result :=
  match m key with
  | some state => .ok mibResetPkt (m.put key (ResetOnuOmciState state))
  | none => .ok mibResetPkt m

/-- Handler `mibUpload`: `pkt[9] = NumMibUploads`. -/
def mibUpload (c : Consts) (class_ : OmciClass) (content : OmciContent) (key : OnuKey)
    (m : OnuOmciStateMap) : Result :=
  .ok (mibUploadPkt.set 9 c.NumMibUploads) m

/-- Handler `set`. -/
def set (class_ : OmciClass) (content : OmciContent) (key : OnuKey)
    (m : OnuOmciStateMap) : Result :=
  .ok setPkt m

/-- Handler `create`.

For the class `GEMPortNetworkCTP` the key is looked up with the `ok` test first; the port
identifier is read from `content[:2]` on the found branch only. -/
def create (c : Consts) (class_ : OmciClass) (content : OmciContent) (key : OnuKey)
    (m : OnuOmciStateMap) : Result :=
  if class_ = c.GEMPortNetworkCTP then
    match m key with
    | none => .error .onuKeyError m
    | some onuOmciState =>
      -- onuOmciState.gemPortId = binary.BigEndian.Uint16(content[:2])
      let onuOmciState :=
        { onuOmciState with gemPortId := BigEndianUint16 content.b0 content.b1 }
      -- OnuOmciStateMap[key].state = DONE
      .ok createPkt (m.put key { onuOmciState with state := istate.DONE })
  else
    .ok createPkt m

/-- Handler `get`. -/
def get (class_ : OmciClass) (content : OmciContent) (key : OnuKey)
    (m : OnuOmciStateMap) : Result :=
  .ok getPkt m

/-- Handler `getAllAlarms`. -/
def getAllAlarms (class_ : OmciClass) (content : OmciContent) (key : OnuKey)
    (m : OnuOmciStateMap) : Result :=
  .ok getAllAlarmsPkt m

/-- Handler `syncTime`. -/
def syncTime (class_ : OmciClass) (content : OmciContent) (key : OnuKey)
    (m : OnuOmciStateMap) : Result :=
  .ok syncTimePkt m

/-- Handler `getAllAlarmsNext`. -/
def getAllAlarmsNext (class_ : OmciClass) (content : OmciContent) (key : OnuKey)
    (m : OnuOmciStateMap) : Result :=
  .ok getAllAlarmsNextPkt m

/-- Handler `delete`. -/
def delete (class_ : OmciClass) (content : OmciContent) (key : OnuKey)
    (m : OnuOmciStateMap) : Result :=
  .ok deletePkt m

/-- Handler `reboot`. -/
def reboot (class_ : OmciClass) (content : OmciContent) (key : OnuKey)
    (m : OnuOmciStateMap) : Result :=
  .ok rebootPkt m

/-- The keys of the table `Handlers`. -/
inductive OmciMsgType where
  | MibReset
  | MibUpload
  | MibUploadNext
  | Set
  | Create
  | Get
  | GetAllAlarms
  | GetAllAlarmsNext
  | SynchronizeTime
  | Delete
  | Reboot
  deriving DecidableEq, Repr

/-- Signature `OmciMsgHandler`, with the state map threaded through. -/
abbrev OmciMsgHandler := OmciClass → OmciContent → OnuKey → OnuOmciStateMap → Result

/-- The table `Handlers`. -/
def Handlers (c : Consts) : OmciMsgType → OmciMsgHandler
  | .MibReset => mibReset
  | .MibUpload => mibUpload c
  | .MibUploadNext => mibUploadNext
  | .Set => set
  | .Create => create c
  | .Get => get
  | .GetAllAlarms => getAllAlarms
  | .GetAllAlarmsNext => getAllAlarmsNext
  | .SynchronizeTime => syncTime
  | .Delete => delete
  | .Reboot => reboot

/-! ## Sequences of get-next calls -/

/-- The command number `mibUploadNext` decodes from the first two bytes of a content. -/
def commandNumber? (content : OmciContent) : Option Nat :=
  some (BigEndianUint16 content.b0 content.b1)

/-- Calls of `mibUploadNext` for one device issued one after the other: the frames
returned, in order, and the final map; `none` as soon as a call does not return a frame. -/
def uploadSeq (key : OnuKey) :
    List (OmciClass × OmciContent) → OnuOmciStateMap → Option (List (List Nat) × OnuOmciStateMap)
  | [], m => some ([], m)
  | (class_, content) :: calls, m =>
    match mibUploadNext class_ content key m with
    | .ok pkt m' =>
      match uploadSeq key calls m' with
      | some (pkts, mf) => some (pkt :: pkts, mf)
      | none => none
    | _ => none

/-- What a successful `mibUploadNext` call with command number `n` does to the record of
the target device: the switch, then `state.mibUploadCtr++`. -/
def uploadStep (n : Nat) (state : OnuOmciState) : Option (List Nat × OnuOmciState) :=
  match mibUploadNextSwitch n state with
  | some (pkt, state) =>
    some (pkt, { state with mibUploadCtr := uint16 (state.mibUploadCtr + 1) })
  | none => none

/-- The function `uploadStep` iterated over a list of command numbers. -/
def uploadSteps : List Nat → OnuOmciState → Option (List (List Nat) × OnuOmciState)
  | [], st => some ([], st)
  | n :: ns, st =>
    match uploadStep n st with
    | some (pkt, st') =>
      match uploadSteps ns st' with
      | some (pkts, stf) => some (pkt :: pkts, stf)
      | none => none
    | none => none

/-- A map holding one device. -/
def singleton (key : OnuKey) (st : OnuOmciState) : OnuOmciStateMap :=
  fun k => if k = key then some st else none

/-! ## Calls through the handler table -/

/-- One request as the transport hands it to the table `Handlers`. -/
structure Call where
  msgType : OmciMsgType
  class_ : OmciClass
  content : OmciContent
  key : OnuKey

/-- One step of the system: the registered handler run on the request. -/
def step (c : Consts) (call : Call) (m : OnuOmciStateMap) : Result :=
  Handlers c call.msgType call.class_ call.content call.key m

/-- The map after a sequence of requests, each run on the map the previous one left. -/
def runCalls (c : Consts) : List Call → OnuOmciStateMap → OnuOmciStateMap
  | [], m => m
  | call :: calls, m => runCalls c calls ((step c call m).map m)

/-- The lifecycle flag stored for a device, if the device is present. -/
def lifecycle? (m : OnuOmciStateMap) (k : OnuKey) : Option istate :=
  (m k).map (fun s => s.state)

/-! ## The documented catalogue -/

/-- The class identifier of a frame: bytes 8 and 9 read as a big-endian number. -/
def classId (pkt : List Nat) : Option Nat :=
  match pkt[8]?, pkt[9]? with
  | some hi, some lo => some (256 * hi + lo)
  | _, _ => none

/-- The class identifier the specification's table gives for each command number 0..66:
0 is ONT Data (2), 1..8 Circuit Pack (6), 9..12 PPTP (11), 13..20 T-CONT (262),
21 ANI-G (263), 22..25 UNI-G (264), 26..57 Priority Queue (277),
58..65 Traffic Scheduler (278), 66 ONT-2G (257). -/
def catalogueClass (i : Nat) : Nat :=
  if i = 0 then 2
  else if i ≤ 8 then 6
  else if i ≤ 12 then 11
  else if i ≤ 20 then 262
  else if i = 21 then 263
  else if i ≤ 25 then 264
  else if i ≤ 57 then 277
  else if i ≤ 65 then 278
  else 257

/-! ## Example records -/

/-- A record in range whose overflow counter holds the largest `uint16`. -/
def stExtraMax : OnuOmciState :=
  { NewOnuOmciState with extraMibUploadCtr := 65535 }

/-- The record reached from a fresh one by the 67 get-next calls 0, 1, .., 66. -/
def stAfterUpload : OnuOmciState :=
  { gemPortId := 0, mibUploadCtr := 67, extraMibUploadCtr := 0, uniGInstance := 5,
    tcontInstance := 8, pptpInstance := 5, priorQInstance := 8, state := istate.INCOMPLETE }

/-- A record in range with an assigned port identifier. -/
def stGemDone : OnuOmciState :=
  { NewOnuOmciState with gemPortId := 11, state := istate.DONE }

/-- A record in range whose count of successful upload steps holds the largest `uint16`. -/
def stCtrMax : OnuOmciState :=
  { NewOnuOmciState with mibUploadCtr := 65535 }

/-- The record a fresh one becomes after the get-next calls 0, 1, .., 26: eight T-CONTs
have been announced and the first priority queue is numbered. -/
def stAfterFirstMask : OnuOmciState :=
  { gemPortId := 0, mibUploadCtr := 27, extraMibUploadCtr := 0, uniGInstance := 5,
    tcontInstance := 8, pptpInstance := 5, priorQInstance := 1, state := istate.INCOMPLETE }

/-- A map holding two devices, (0, 1) and (0, 2), both with a fresh record. -/
def twoFresh : OnuOmciStateMap :=
  (singleton ⟨0, 1⟩ NewOnuOmciState).put ⟨0, 2⟩ NewOnuOmciState

/-! ## What callers observe -/

/-- The pair `([]byte, error)` a call hands back; both are absent when the call panics. -/
def Result.seen : Result → Option (List Nat) × Option OmciError
  | .ok pkt _ => (some pkt, none)
  | .error e _ => (none, some e)
  | .panic => (none, none)

/-- The pairs handed back, in order, to the requests of a run that are aimed at device `k`. -/
def seenBy (c : Consts) (k : OnuKey) :
    List Call → OnuOmciStateMap → List (Option (List Nat) × Option OmciError)
  | [], _ => []
  | call :: calls, m =>
    if call.key = k then
      (step c call m).seen :: seenBy c k calls ((step c call m).map m)
    else
      seenBy c k calls ((step c call m).map m)

/-- Byte `j` of the `i`-th frame of a list of frames. -/
def byteAt (pkts : List (List Nat)) (i j : Nat) : Option Nat :=
  match pkts[i]? with
  | some pkt => pkt[j]?
  | none => none

/-- The instance identifier of the `i`-th frame: bytes 10 and 11 read as a big-endian
number. -/
def instanceIdAt (pkts : List (List Nat)) (i : Nat) : Option Nat :=
  match byteAt pkts i 10, byteAt pkts i 11 with
  | some hi, some lo => some (256 * hi + lo)
  | _, _ => none

/-- The bytes a full upload is documented to carry for the traffic-container counter:
byte 11 of the T-CONT frames (13..20) is 0..7, bytes 24 and 28 of both attribute-list
frames of the `k`-th priority-queue group are `8 - k`, byte 15 of the traffic-scheduler
frames (58..65) is 0..7. -/
def tcontTrajectory (pkts : List (List Nat)) : Prop :=
  (∀ j, j < 8 → byteAt pkts (13 + j) 11 = some j) ∧
  (∀ k, 1 ≤ k → k ≤ 8 →
    byteAt pkts (27 + 4 * (k - 1)) 24 = some (8 - k) ∧
    byteAt pkts (27 + 4 * (k - 1)) 28 = some (8 - k) ∧
    byteAt pkts (29 + 4 * (k - 1)) 24 = some (8 - k) ∧
    byteAt pkts (29 + 4 * (k - 1)) 28 = some (8 - k)) ∧
  (∀ j, j < 8 → byteAt pkts (58 + j) 15 = some j)

instance (pkts : List (List Nat)) : Decidable (tcontTrajectory pkts) := by
  unfold tcontTrajectory
  infer_instance

/-- The instance identifiers a full upload is documented to carry in the four frames of
the `k`-th priority-queue group: 0x000k, 0x000k, 0x800k, 0x800k. -/
def priorQNumbering (pkts : List (List Nat)) : Prop :=
  ∀ k, 1 ≤ k → k ≤ 8 →
    instanceIdAt pkts (26 + 4 * (k - 1)) = some k ∧
    instanceIdAt pkts (27 + 4 * (k - 1)) = some k ∧
    instanceIdAt pkts (28 + 4 * (k - 1)) = some (0x8000 + k) ∧
    instanceIdAt pkts (29 + 4 * (k - 1)) = some (0x8000 + k)

instance (pkts : List (List Nat)) : Decidable (priorQNumbering pkts) := by
  unfold priorQNumbering
  infer_instance

/-! ## Basic facts -/

theorem uint16_lt (n : Nat) : uint16 n < 2 ^ 16 :=
  Nat.mod_lt _ (by decide)

theorem uint16_of_lt {n : Nat} (h : n < 2 ^ 16) : uint16 n = n :=
  Nat.mod_eq_of_lt h

theorem BigEndianUint16_lt (b0 b1 : Nat) : BigEndianUint16 b0 b1 < 2 ^ 16 :=
  uint16_lt _

/-- On bytes, `BigEndianUint16` is the big-endian value `256 * b0 + b1`. -/
theorem BigEndianUint16_eq {b0 b1 : Nat} (h0 : b0 < 256) (h1 : b1 < 256) :
    BigEndianUint16 b0 b1 = 256 * b0 + b1 := by
  have e0 : uint16 b0 = b0 := uint16_of_lt (by omega)
  have e1 : uint16 b1 = b1 := uint16_of_lt (by omega)
  have e2 : b0 <<< 8 = 2 ^ 8 * b0 := by rw [Nat.shiftLeft_eq, Nat.mul_comm]
  have e3 : uint16 (2 ^ 8 * b0) = 2 ^ 8 * b0 := uint16_of_lt (by omega)
  have h1' : b1 < 2 ^ 8 := by omega
  unfold BigEndianUint16
  rw [e0, e1, e2, e3, Nat.lor_comm, ← Nat.mul_add_lt_is_or h1' b0]
  exact uint16_of_lt (by omega)

theorem put_same (m : OnuOmciStateMap) (key : OnuKey) (s : OnuOmciState) :
    m.put key s key = some s := by
  simp [OnuOmciStateMap.put]

theorem put_other (m : OnuOmciStateMap) {key k : OnuKey} (s : OnuOmciState) (h : k ≠ key) :
    m.put key s k = m k := by
  simp [OnuOmciStateMap.put, h]

theorem put_put (m : OnuOmciStateMap) (key : OnuKey) (s t : OnuOmciState) :
    (m.put key s).put key t = m.put key t := by
  funext k
  by_cases h : k = key <;> simp [OnuOmciStateMap.put, h]

theorem put_self (m : OnuOmciStateMap) {key : OnuKey} {s : OnuOmciState} (h : m key = some s) :
    m.put key s = m := by
  funext k
  by_cases hk : k = key
  · subst hk; simp [OnuOmciStateMap.put, h]
  · simp [OnuOmciStateMap.put, hk]

/-- The default case of the switch is taken exactly for command numbers above 66. -/
theorem mibUploadNextSwitch_eq_none_iff (n : Nat) (st : OnuOmciState) :
    mibUploadNextSwitch n st = none ↔ 66 < n := by
  constructor
  · intro h
    by_contra hn
    have hle : n ≤ 66 := by omega
    interval_cases n <;> simp [mibUploadNextSwitch] at h
  · intro h
    have hne : ∀ k, k ≤ 66 → n ≠ k := fun k hk => by omega
    simp [mibUploadNextSwitch, hne]

/-- The switch never writes the lifecycle flag, the port identifier or the two upload
counters of the record. -/
theorem mibUploadNextSwitch_frame {n : Nat} {st st' : OnuOmciState} {pkt : List Nat}
    (h : mibUploadNextSwitch n st = some (pkt, st')) :
    st'.state = st.state ∧ st'.gemPortId = st.gemPortId ∧
    st'.mibUploadCtr = st.mibUploadCtr ∧ st'.extraMibUploadCtr = st.extraMibUploadCtr := by
  have hn : n ≤ 66 := by
    by_contra hn
    rw [(mibUploadNextSwitch_eq_none_iff n st).2 (by omega)] at h
    cases h
  interval_cases n <;> simp [mibUploadNextSwitch] at h <;> obtain ⟨-, rfl⟩ := h <;>
    exact ⟨rfl, rfl, rfl, rfl⟩

/-- A call of `mibUploadNext` on a present device is the switch run on the stored record
with the command number decoded from the first two content bytes: the two ways it can
end. -/
theorem mibUploadNext_present (class_ : OmciClass) (c0 c1 : Nat) (rest : List Nat)
    (key : OnuKey) (m : OnuOmciStateMap) (st : OnuOmciState) (hm : m key = some st) :
    mibUploadNext class_ ⟨c0, c1, rest⟩ key m =
      match mibUploadNextSwitch (BigEndianUint16 c0 c1) st with
      | none =>
        .error (.invalidMibUpload key st.mibUploadCtr (uint16 (st.extraMibUploadCtr + 1)))
          (m.put key { st with extraMibUploadCtr := uint16 (st.extraMibUploadCtr + 1) })
      | some (pkt, st') =>
        .ok pkt (m.put key { st' with mibUploadCtr := uint16 (st'.mibUploadCtr + 1) }) := by
  simp only [mibUploadNext, hm, BigEndianUint16]

theorem mibUploadNext_of_uploadStep {class_ : OmciClass} {content : OmciContent} {key : OnuKey}
    {m : OnuOmciStateMap} {st st' : OnuOmciState} {n : Nat} {pkt : List Nat}
    (hm : m key = some st) (hc : commandNumber? content = some n)
    (hs : uploadStep n st = some (pkt, st')) :
    mibUploadNext class_ content key m = .ok pkt (m.put key st') := by
  obtain ⟨c0, c1, rest⟩ := content
  simp only [commandNumber?, Option.some.injEq] at hc
  rw [mibUploadNext_present class_ c0 c1 rest key m st hm, hc]
  unfold uploadStep at hs
  cases hsw : mibUploadNextSwitch n st with
  | none => simp [hsw] at hs
  | some p =>
    obtain ⟨q, st1⟩ := p
    simp only [hsw, Option.some.injEq, Prod.mk.injEq] at hs
    obtain ⟨rfl, rfl⟩ := hs
    rfl

/-- A sequence of get-next calls on a present device is the iteration of `uploadStep` on
its record, whatever the classes and the bytes after the command number. -/
theorem uploadSeq_of_uploadSteps (key : OnuKey) :
    ∀ (calls : List (OmciClass × OmciContent)) (ns : List Nat) (m : OnuOmciStateMap)
      (st stf : OnuOmciState) (pkts : List (List Nat)),
      m key = some st →
      calls.map (fun c => commandNumber? c.2) = ns.map some →
      uploadSteps ns st = some (pkts, stf) →
      uploadSeq key calls m = some (pkts, m.put key stf)
  | [], [], m, st, stf, pkts, hm, _, hs => by
    simp only [uploadSteps, Option.some.injEq, Prod.mk.injEq] at hs
    obtain ⟨rfl, rfl⟩ := hs
    simp [uploadSeq, put_self m hm]
  | [], _ :: _, _, _, _, _, _, hc, _ => by simp at hc
  | _ :: _, [], _, _, _, _, _, hc, _ => by simp at hc
  | (class_, content) :: calls, n :: ns, m, st, stf, pkts, hm, hc, hs => by
    simp only [List.map_cons, List.cons.injEq] at hc
    obtain ⟨hc1, hc2⟩ := hc
    simp only [uploadSteps] at hs
    cases h1 : uploadStep n st with
    | none => simp [h1] at hs
    | some p =>
      obtain ⟨pkt, st1⟩ := p
      simp only [h1] at hs
      cases h2 : uploadSteps ns st1 with
      | none => simp [h2] at hs
      | some q =>
        obtain ⟨ps, st2⟩ := q
        simp only [h2, Option.some.injEq, Prod.mk.injEq] at hs
        obtain ⟨rfl, rfl⟩ := hs
        have ih := uploadSeq_of_uploadSteps key calls ns (m.put key st1) st1 st2 ps
          (put_same m key st1) hc2 h2
        simp only [uploadSeq, mibUploadNext_of_uploadStep hm hc1 h1, ih, put_put]

/-- What `mibReset` does when the device is present. -/
theorem mibReset_present (class_ : OmciClass) (content : OmciContent) (key : OnuKey)
    (m : OnuOmciStateMap) (st : OnuOmciState) (hm : m key = some st) :
    mibReset class_ content key m = .ok mibResetPkt (m.put key (ResetOnuOmciState st)) := by
  simp [mibReset, hm]

/-- What `mibReset` does when the device is absent. -/
theorem mibReset_absent (class_ : OmciClass) (content : OmciContent) (key : OnuKey)
    (m : OnuOmciStateMap) (hm : m key = none) :
    mibReset class_ content key m = .ok mibResetPkt m := by
  simp [mibReset, hm]

/-! ## Out-of-range command numbers -/

/-- C1, as stated, fails: on the present device (0, 1) whose overflow counter is 65535, a
get-next call with content bytes 0x00 0x43 (command number 67 > 66) returns an error, and
`extraMibUploadCtr` is 0 afterwards, not 65535 + 1. -/
theorem mibUploadNext_overflow_counterexample :
    stExtraMax.WF ∧ 66 < BigEndianUint16 0x00 0x43 ∧
    (mibUploadNext 0 ⟨0x00, 0x43, []⟩ ⟨0, 1⟩ (singleton ⟨0, 1⟩ stExtraMax)).err? =
      some (.invalidMibUpload ⟨0, 1⟩ 0 0) ∧
    ((mibUploadNext 0 ⟨0x00, 0x43, []⟩ ⟨0, 1⟩ (singleton ⟨0, 1⟩ stExtraMax)).map
      (singleton ⟨0, 1⟩ stExtraMax) ⟨0, 1⟩).map (fun s => s.extraMibUploadCtr) = some 0 ∧
    ((mibUploadNext 0 ⟨0x00, 0x43, []⟩ ⟨0, 1⟩ (singleton ⟨0, 1⟩ stExtraMax)).map
      (singleton ⟨0, 1⟩ stExtraMax) ⟨0, 1⟩).map (fun s => s.extraMibUploadCtr) ≠
      some (stExtraMax.extraMibUploadCtr + 1) := by
  decide

/-- C1, amended: for a present device, any record and any content whose first two bytes
decode to a command number above 66, `mibUploadNext` returns an error and no frame; the
record is written back with `extraMibUploadCtr` replaced by its successor modulo 2^16 and
every other field (mibUploadCtr, instance counters, gemPortId, lifecycle) as it was. The
successor is exactly one more below 65535 and wraps to 0 at 65535. -/
theorem mibUploadNext_out_of_range (class_ : OmciClass) (c0 c1 : Nat) (rest : List Nat)
    (key : OnuKey) (m : OnuOmciStateMap) (st : OnuOmciState)
    (hpresent : m key = some st) (hidx : 66 < BigEndianUint16 c0 c1) :
    mibUploadNext class_ ⟨c0, c1, rest⟩ key m =
      .error (.invalidMibUpload key st.mibUploadCtr ((st.extraMibUploadCtr + 1) % 2 ^ 16))
        (m.put key { st with extraMibUploadCtr := (st.extraMibUploadCtr + 1) % 2 ^ 16 }) ∧
    (st.extraMibUploadCtr < 65535 →
      (st.extraMibUploadCtr + 1) % 2 ^ 16 = st.extraMibUploadCtr + 1) ∧
    (st.extraMibUploadCtr = 65535 → (st.extraMibUploadCtr + 1) % 2 ^ 16 = 0) := by
  refine ⟨?_, ?_, ?_⟩
  · rw [mibUploadNext_present class_ c0 c1 rest key m st hpresent,
      (mibUploadNextSwitch_eq_none_iff _ st).2 hidx]
    rfl
  · intro h; omega
  · intro h; omega

/-- Witness for C1 amended: device (0, 1), fresh record, content bytes 0x00 0x43. -/
theorem mibUploadNext_out_of_range_witness :
    singleton ⟨0, 1⟩ NewOnuOmciState ⟨0, 1⟩ = some NewOnuOmciState ∧
    66 < BigEndianUint16 0x00 0x43 ∧
    mibUploadNext 0 ⟨0x00, 0x43, []⟩ ⟨0, 1⟩ (singleton ⟨0, 1⟩ NewOnuOmciState) =
      .error (.invalidMibUpload ⟨0, 1⟩ 0 1)
        ((singleton ⟨0, 1⟩ NewOnuOmciState).put ⟨0, 1⟩
          { NewOnuOmciState with extraMibUploadCtr := 1 }) :=
  ⟨by decide, by decide,
    (mibUploadNext_out_of_range 0 0x00 0x43 [] ⟨0, 1⟩ (singleton ⟨0, 1⟩ NewOnuOmciState)
      NewOnuOmciState (by decide) (by decide)).1⟩

/-! ## Physical-port instances after creation or reset -/

/-- From a record whose physical-port counter is 1, command numbers 9, 10, 11, 12 stamp
1, 2, 3, 4 into byte 11 and leave the counter at 5. -/
theorem uploadSteps_pptp (st : OnuOmciState) (h : st.pptpInstance = 1) :
    ∃ stf, uploadSteps [9, 10, 11, 12] st =
        some ([pktPptp.set 11 1, pktPptp.set 11 2, pktPptp.set 11 3, pktPptp.set 11 4], stf) ∧
      stf.pptpInstance = 5 := by
  simp [uploadSteps, uploadStep, mibUploadNextSwitch, h, uint8]

/-- C2: on a device whose record is fresh (`NewOnuOmciState`) or was just reset by
`mibReset` from any prior record, get-next calls with command numbers 9, 10, 11, 12 in
that order all return a frame, byte 11 of the frames is 1, 2, 3, 4, and `pptpInstance`
is 5 afterwards. -/
theorem pptp_instances_from_fresh_or_reset (key : OnuKey) (m : OnuOmciStateMap)
    (calls : List (OmciClass × OmciContent))
    (hstart : m key = some NewOnuOmciState ∨
      ∃ (m0 : OnuOmciStateMap) (st0 : OnuOmciState) (class_ : OmciClass)
        (content : OmciContent),
        m0 key = some st0 ∧ m = (mibReset class_ content key m0).map m0)
    (hcalls : calls.map (fun c => commandNumber? c.2) = [some 9, some 10, some 11, some 12]) :
    ∃ p9 p10 p11 p12 mf,
      uploadSeq key calls m = some ([p9, p10, p11, p12], mf) ∧
      p9[11]? = some 1 ∧ p10[11]? = some 2 ∧ p11[11]? = some 3 ∧ p12[11]? = some 4 ∧
      (mf key).map (fun s => s.pptpInstance) = some 5 := by
  have hst : ∃ st, m key = some st ∧ st.pptpInstance = 1 := by
    rcases hstart with h | ⟨m0, st0, class_, content, h0, rfl⟩
    · exact ⟨_, h, rfl⟩
    · refine ⟨ResetOnuOmciState st0, ?_, rfl⟩
      rw [mibReset_present class_ content key m0 st0 h0]
      exact put_same m0 key _
  obtain ⟨st, hm, hp⟩ := hst
  obtain ⟨stf, hsteps, hf⟩ := uploadSteps_pptp st hp
  refine ⟨_, _, _, _, _, uploadSeq_of_uploadSteps key calls [9, 10, 11, 12] m st stf _ hm
    (by simpa using hcalls) hsteps, ?_, ?_, ?_, ?_, ?_⟩
  · decide
  · decide
  · decide
  · decide
  · simp [put_same, hf]

/-- Witness for C2: device (0, 1) with a fresh record, contents 0x00 0x09 .. 0x00 0x0c. -/
theorem pptp_instances_from_fresh_or_reset_witness :
    ∃ p9 p10 p11 p12 mf,
      uploadSeq ⟨0, 1⟩ [(0, ⟨0x00, 0x09, []⟩), (0, ⟨0x00, 0x0a, []⟩), (0, ⟨0x00, 0x0b, []⟩),
        (0, ⟨0x00, 0x0c, []⟩)] (singleton ⟨0, 1⟩ NewOnuOmciState) =
        some ([p9, p10, p11, p12], mf) ∧
      p9[11]? = some 1 ∧ p10[11]? = some 2 ∧ p11[11]? = some 3 ∧ p12[11]? = some 4 ∧
      (mf ⟨0, 1⟩).map (fun s => s.pptpInstance) = some 5 :=
  pptp_instances_from_fresh_or_reset ⟨0, 1⟩ (singleton ⟨0, 1⟩ NewOnuOmciState) _
    (Or.inl (by decide)) (by decide)

/-! ## Reset -/

/-- The counters `ResetOnuOmciState` assigns, and the one it does not. -/
theorem ResetOnuOmciState_counters (s : OnuOmciState) :
    (ResetOnuOmciState s).mibUploadCtr = 0 ∧ (ResetOnuOmciState s).extraMibUploadCtr = 0 ∧
    (ResetOnuOmciState s).uniGInstance = 1 ∧ (ResetOnuOmciState s).pptpInstance = 1 ∧
    (ResetOnuOmciState s).tcontInstance = 0 ∧
    (ResetOnuOmciState s).priorQInstance = s.priorQInstance :=
  ⟨rfl, rfl, rfl, rfl, rfl, rfl⟩

/-- C3, the code at the failing input: the record `stAfterUpload` is the one a full upload
0..66 leaves behind a fresh record; `mibReset` on a device holding it restores the other
five counters but leaves `priorQInstance` at 8, while a fresh record has 0; the next
"downstream mask" priority-queue frame (command number 26) therefore carries instance 9. -/
theorem mibReset_keeps_priorQInstance :
    (uploadSteps (List.range 67) NewOnuOmciState).map Prod.snd = some stAfterUpload ∧
    stAfterUpload.WF ∧
    (mibReset 0 ⟨0x00, 0x00, []⟩ ⟨0, 1⟩ (singleton ⟨0, 1⟩ stAfterUpload)).err? = none ∧
    (mibReset 0 ⟨0x00, 0x00, []⟩ ⟨0, 1⟩ (singleton ⟨0, 1⟩ stAfterUpload)).map
        (singleton ⟨0, 1⟩ stAfterUpload) ⟨0, 1⟩ =
      some { NewOnuOmciState with priorQInstance := 8 } ∧
    NewOnuOmciState.priorQInstance = 0 ∧
    (uploadStep 26 { NewOnuOmciState with priorQInstance := 8 }).map (fun r => r.1[11]?) =
      some (some 9) := by
  decide

/-- C4, as stated, fails: on the present device (0, 1) with `gemPortId = 11` and lifecycle
`DONE`, `mibReset` leaves the lifecycle `DONE` but `gemPortId` is 0 afterwards, not 11. -/
theorem mibReset_gemPortId_counterexample :
    stGemDone.WF ∧
    ((mibReset 0 ⟨0x00, 0x00, []⟩ ⟨0, 1⟩ (singleton ⟨0, 1⟩ stGemDone)).map
      (singleton ⟨0, 1⟩ stGemDone) ⟨0, 1⟩).map (fun s => (s.state, s.gemPortId)) =
      some (istate.DONE, 0) ∧
    ((mibReset 0 ⟨0x00, 0x00, []⟩ ⟨0, 1⟩ (singleton ⟨0, 1⟩ stGemDone)).map
      (singleton ⟨0, 1⟩ stGemDone) ⟨0, 1⟩).map (fun s => s.gemPortId) ≠
      some stGemDone.gemPortId := by
  decide

/-- C4, amended: for every record of a present device, `mibReset` returns the fixed
acknowledgement frame without error, leaves the lifecycle flag as it was and sets
`gemPortId` to 0; when the device is absent, `mibReset` changes nothing and still returns
the fixed acknowledgement frame without error. -/
theorem mibReset_lifecycle_and_gemPortId (class_ : OmciClass) (content : OmciContent)
    (key : OnuKey) (m : OnuOmciStateMap) :
    (∀ st, m key = some st →
      ∃ st', mibReset class_ content key m = .ok mibResetPkt (m.put key st') ∧
        st'.state = st.state ∧ st'.gemPortId = 0) ∧
    (m key = none → mibReset class_ content key m = .ok mibResetPkt m) :=
  ⟨fun st h => ⟨ResetOnuOmciState st, mibReset_present class_ content key m st h, rfl, rfl⟩,
    mibReset_absent class_ content key m⟩

/-- Witness for C4 amended: device (0, 1) present with `stGemDone`, device (0, 2) absent. -/
theorem mibReset_lifecycle_and_gemPortId_witness :
    (∃ st', mibReset 0 ⟨0x00, 0x00, []⟩ ⟨0, 1⟩ (singleton ⟨0, 1⟩ stGemDone) =
        .ok mibResetPkt ((singleton ⟨0, 1⟩ stGemDone).put ⟨0, 1⟩ st') ∧
      st'.state = istate.DONE ∧ st'.gemPortId = 0) ∧
    mibReset 0 ⟨0x00, 0x00, []⟩ ⟨0, 2⟩ (singleton ⟨0, 1⟩ stGemDone) =
      .ok mibResetPkt (singleton ⟨0, 1⟩ stGemDone) :=
  ⟨(mibReset_lifecycle_and_gemPortId 0 ⟨0x00, 0x00, []⟩ ⟨0, 1⟩
      (singleton ⟨0, 1⟩ stGemDone)).1 stGemDone (by decide),
    (mibReset_lifecycle_and_gemPortId 0 ⟨0x00, 0x00, []⟩ ⟨0, 2⟩
      (singleton ⟨0, 1⟩ stGemDone)).2 (by decide)⟩

/-! ## Create and the port identifier -/

/-- What `create` does for the class `GEMPortNetworkCTP` on a present device. -/
theorem create_gem_present (c : Consts) (b0 b1 : Nat) (rest : List Nat) (key : OnuKey)
    (m : OnuOmciStateMap) (st : OnuOmciState) (hm : m key = some st) :
    create c c.GEMPortNetworkCTP ⟨b0, b1, rest⟩ key m =
      .ok createPkt
        (m.put key { st with gemPortId := BigEndianUint16 b0 b1, state := istate.DONE }) := by
  simp [create, hm]

/-- What `create` does for the class `GEMPortNetworkCTP` on an absent device. -/
theorem create_gem_absent (c : Consts) (content : OmciContent) (key : OnuKey)
    (m : OnuOmciStateMap) (hm : m key = none) :
    create c c.GEMPortNetworkCTP content key m = .error .onuKeyError m := by
  simp [create, hm]

/-- What `create` does for any other class. -/
theorem create_other (c : Consts) (class_ : OmciClass) (content : OmciContent) (key : OnuKey)
    (m : OnuOmciStateMap) (hc : class_ ≠ c.GEMPortNetworkCTP) :
    create c class_ content key m = .ok createPkt m := by
  simp [create, hc]

/-- C5: for a present device and a content of at least two bytes, `create` with class
`GEMPortNetworkCTP` returns the acknowledgement frame without error; in the record written
back `gemPortId` is the 16-bit big-endian value of the first two content bytes, the
lifecycle is `DONE` and the upload and instance counters are as before; a following
`GetGemPortId` for that device returns exactly that value without error. -/
theorem create_sets_gemPortId (c : Consts) (b0 b1 : Nat) (rest : List Nat) (key : OnuKey)
    (m : OnuOmciStateMap) (st : OnuOmciState) (hpresent : m key = some st) :
    ∃ st' m',
      create c c.GEMPortNetworkCTP ⟨b0, b1, rest⟩ key m = .ok createPkt m' ∧
      m' = m.put key st' ∧
      st'.gemPortId = BigEndianUint16 b0 b1 ∧
      (b0 < 256 → b1 < 256 → st'.gemPortId = 256 * b0 + b1) ∧
      st'.state = istate.DONE ∧
      st'.mibUploadCtr = st.mibUploadCtr ∧ st'.extraMibUploadCtr = st.extraMibUploadCtr ∧
      st'.uniGInstance = st.uniGInstance ∧ st'.tcontInstance = st.tcontInstance ∧
      st'.pptpInstance = st.pptpInstance ∧ st'.priorQInstance = st.priorQInstance ∧
      GetGemPortId m' key.IntfId key.OnuId = (.ok (BigEndianUint16 b0 b1), m') := by
  refine ⟨{ st with gemPortId := BigEndianUint16 b0 b1, state := istate.DONE }, _,
    create_gem_present c b0 b1 rest key m st hpresent, rfl, rfl,
    fun h0 h1 => BigEndianUint16_eq h0 h1, rfl, rfl, rfl, rfl, rfl, rfl, rfl, ?_⟩
  simp [GetGemPortId, put_same]

/-- Witness for C5: device (0, 1) with a fresh record and content 0x00 0x0b, which gives 11. -/
theorem create_sets_gemPortId_witness :
    singleton ⟨0, 1⟩ NewOnuOmciState ⟨0, 1⟩ = some NewOnuOmciState ∧
    BigEndianUint16 0x00 0x0b = 11 ∧
    ∃ st' m',
      create ⟨268, 67⟩ 268 ⟨0x00, 0x0b, []⟩ ⟨0, 1⟩ (singleton ⟨0, 1⟩ NewOnuOmciState) =
        .ok createPkt m' ∧
      m' = (singleton ⟨0, 1⟩ NewOnuOmciState).put ⟨0, 1⟩ st' ∧
      st'.gemPortId = BigEndianUint16 0x00 0x0b ∧
      (0x00 < 256 → 0x0b < 256 → st'.gemPortId = 256 * 0x00 + 0x0b) ∧
      st'.state = istate.DONE ∧
      st'.mibUploadCtr = 0 ∧ st'.extraMibUploadCtr = 0 ∧
      st'.uniGInstance = 1 ∧ st'.tcontInstance = 0 ∧
      st'.pptpInstance = 1 ∧ st'.priorQInstance = 0 ∧
      GetGemPortId m' 0 1 = (.ok (BigEndianUint16 0x00 0x0b), m') :=
  ⟨by decide, by decide,
    create_sets_gemPortId ⟨268, 67⟩ 0x00 0x0b [] ⟨0, 1⟩ (singleton ⟨0, 1⟩ NewOnuOmciState)
      NewOnuOmciState (by decide)⟩

/-- C6: `create` returns an error exactly when the class is `GEMPortNetworkCTP` and the
device is absent; in that case, and for every call with another class (device present or
not), the map is left as it was; and every call outside the error case returns, without
error, the one fixed frame `createPkt`. -/
theorem create_error_iff (c : Consts) (class_ : OmciClass) (content : OmciContent)
    (key : OnuKey) (m : OnuOmciStateMap) :
    ((∃ e m', create c class_ content key m = .error e m') ↔
      (class_ = c.GEMPortNetworkCTP ∧ m key = none)) ∧
    (class_ = c.GEMPortNetworkCTP → m key = none →
      create c class_ content key m = .error .onuKeyError m) ∧
    (class_ ≠ c.GEMPortNetworkCTP → create c class_ content key m = .ok createPkt m) ∧
    (∀ pkt m', create c class_ content key m = .ok pkt m' → pkt = createPkt) ∧
    (¬ (class_ = c.GEMPortNetworkCTP ∧ m key = none) →
      ∃ m', create c class_ content key m = .ok createPkt m') := by
  refine ⟨?_, ?_, ?_, ?_, ?_⟩
  · constructor
    · rintro ⟨e, m', h⟩
      by_cases hc : class_ = c.GEMPortNetworkCTP
      · refine ⟨hc, ?_⟩
        cases hm : m key with
        | none => rfl
        | some st =>
          obtain ⟨b0, b1, rest⟩ := content
          simp [create, hc, hm] at h
      · rw [create_other c class_ content key m hc] at h
        cases h
    · rintro ⟨rfl, hm⟩
      exact ⟨_, _, create_gem_absent c content key m hm⟩
  · rintro rfl hm
    exact create_gem_absent c content key m hm
  · exact create_other c class_ content key m
  · intro pkt m' h
    by_cases hc : class_ = c.GEMPortNetworkCTP
    · cases hm : m key with
      | none => simp [create, hc, hm] at h
      | some st =>
        obtain ⟨b0, b1, rest⟩ := content
        simp only [create, hc, hm, if_true] at h
        injection h with h1 h2
        exact h1.symm
    · rw [create_other c class_ content key m hc] at h
      injection h with h1 h2
      exact h1.symm
  · intro hne
    by_cases hc : class_ = c.GEMPortNetworkCTP
    · subst hc
      cases hm : m key with
      | none => exact absurd ⟨rfl, hm⟩ hne
      | some st =>
        obtain ⟨b0, b1, rest⟩ := content
        exact ⟨_, create_gem_present c b0 b1 rest key m st hm⟩
    · exact ⟨m, create_other c class_ content key m hc⟩

/-- Witness for C6: class 268 on the absent device (0, 2), and class 5 and class 268 on
the present device (0, 1). -/
theorem create_error_iff_witness :
    create ⟨268, 67⟩ 268 ⟨0x00, 0x0b, []⟩ ⟨0, 2⟩ (singleton ⟨0, 1⟩ NewOnuOmciState) =
      .error .onuKeyError (singleton ⟨0, 1⟩ NewOnuOmciState) ∧
    create ⟨268, 67⟩ 5 ⟨0x00, 0x0b, []⟩ ⟨0, 1⟩ (singleton ⟨0, 1⟩ NewOnuOmciState) =
      .ok createPkt (singleton ⟨0, 1⟩ NewOnuOmciState) ∧
    ∃ m', create ⟨268, 67⟩ 268 ⟨0x00, 0x0b, []⟩ ⟨0, 1⟩ (singleton ⟨0, 1⟩ NewOnuOmciState) =
      .ok createPkt m' :=
  ⟨(create_error_iff ⟨268, 67⟩ 268 ⟨0x00, 0x0b, []⟩ ⟨0, 2⟩
      (singleton ⟨0, 1⟩ NewOnuOmciState)).2.1 rfl (by decide),
    (create_error_iff ⟨268, 67⟩ 5 ⟨0x00, 0x0b, []⟩ ⟨0, 1⟩
      (singleton ⟨0, 1⟩ NewOnuOmciState)).2.2.1 (by decide),
    (create_error_iff ⟨268, 67⟩ 268 ⟨0x00, 0x0b, []⟩ ⟨0, 1⟩
      (singleton ⟨0, 1⟩ NewOnuOmciState)).2.2.2.2 (by decide)⟩

/-- C7: `GetGemPortId` returns an error if and only if the device is absent or its
lifecycle is not `DONE`; otherwise it returns the stored `gemPortId`; it never changes the
map; in particular it fails on every device whose record is fresh. -/
theorem GetGemPortId_error_iff (m : OnuOmciStateMap) (intfId onuId : Nat) :
    ((∃ e, (GetGemPortId m intfId onuId).1 = .error e) ↔
      (m ⟨intfId, onuId⟩ = none ∨
        ∃ st, m ⟨intfId, onuId⟩ = some st ∧ st.state ≠ istate.DONE)) ∧
    (∀ st, m ⟨intfId, onuId⟩ = some st → st.state = istate.DONE →
      (GetGemPortId m intfId onuId).1 = .ok st.gemPortId) ∧
    (GetGemPortId m intfId onuId).2 = m ∧
    (m ⟨intfId, onuId⟩ = some NewOnuOmciState →
      (GetGemPortId m intfId onuId).1 = .error (.notDone intfId onuId)) := by
  refine ⟨?_, ?_, ?_, ?_⟩
  · cases hm : m ⟨intfId, onuId⟩ with
    | none => simp [GetGemPortId, hm]
    | some st =>
      by_cases hs : st.state = istate.DONE <;> simp [GetGemPortId, hm, hs]
  · intro st hm hs
    simp [GetGemPortId, hm, hs]
  · unfold GetGemPortId
    split
    · split <;> rfl
    · rfl
  · intro hm
    simp [GetGemPortId, hm, NewOnuOmciState]

/-- Witness for C7: device (0, 1) holds `stGemDone` (lifecycle `DONE`, port 11), device
(0, 2) holds a fresh record. -/
theorem GetGemPortId_error_iff_witness :
    (GetGemPortId (singleton ⟨0, 1⟩ stGemDone) 0 1).1 = .ok 11 ∧
    (GetGemPortId (singleton ⟨0, 2⟩ NewOnuOmciState) 0 2).1 = .error (.notDone 0 2) :=
  ⟨(GetGemPortId_error_iff (singleton ⟨0, 1⟩ stGemDone) 0 1).2.1 stGemDone (by decide)
      (by decide),
    (GetGemPortId_error_iff (singleton ⟨0, 2⟩ NewOnuOmciState) 0 2).2.2.2 (by decide)⟩

/-! ## Lifecycle -/

/-- One handler call and the lifecycle flag of any device: the device stays present or
absent; the flag changes only in a successful `create` with class `GEMPortNetworkCTP`
aimed at that very device, and then it is `DONE` afterwards. -/
theorem step_lifecycle (c : Consts) (call : Call) (m : OnuOmciStateMap) (k : OnuKey) :
    lifecycle? ((step c call m).map m) k = lifecycle? m k ∨
    (call.msgType = OmciMsgType.Create ∧ call.class_ = c.GEMPortNetworkCTP ∧ call.key = k ∧
      (∃ m', step c call m = .ok createPkt m') ∧ (∃ st, m k = some st) ∧
      lifecycle? ((step c call m).map m) k = some istate.DONE) := by
  obtain ⟨t, class_, content, key⟩ := call
  cases t
  case MibReset =>
    left
    simp only [step, Handlers]
    cases hm : m key with
    | none => rw [mibReset_absent class_ content key m hm]; rfl
    | some st =>
      rw [mibReset_present class_ content key m st hm]
      by_cases hk : k = key
      · subst hk; simp [Result.map, lifecycle?, put_same, hm, ResetOnuOmciState]
      · simp [Result.map, lifecycle?, put_other m _ hk]
  case MibUploadNext =>
    left
    simp only [step, Handlers]
    obtain ⟨c0, c1, rest⟩ := content
    cases hm : m key with
    | none => simp [mibUploadNext, hm, Result.map]
    | some st =>
      rw [mibUploadNext_present class_ c0 c1 rest key m st hm]
      by_cases hk : k = key
      · subst hk
        cases hsw : mibUploadNextSwitch (BigEndianUint16 c0 c1) st with
        | none => simp [Result.map, lifecycle?, put_same, hm]
        | some p =>
          obtain ⟨pkt, st'⟩ := p
          have hst : st'.state = st.state := (mibUploadNextSwitch_frame hsw).1
          simp [Result.map, lifecycle?, put_same, hm, hst]
      · cases hsw : mibUploadNextSwitch (BigEndianUint16 c0 c1) st with
        | none => simp [Result.map, lifecycle?, put_other m _ hk]
        | some p => simp [Result.map, lifecycle?, put_other m _ hk]
  case Create =>
    simp only [step, Handlers]
    by_cases hc : class_ = c.GEMPortNetworkCTP
    · subst hc
      cases hm : m key with
      | none => left; rw [create_gem_absent c content key m hm]; rfl
      | some st =>
        obtain ⟨b0, b1, rest⟩ := content
        rw [create_gem_present c b0 b1 rest key m st hm]
        by_cases hk : k = key
        · subst hk
          simp [Result.map, lifecycle?, put_same, hm]
        · left
          simp [Result.map, lifecycle?, put_other m _ hk]
    · left; rw [create_other c class_ content key m hc]; rfl
  all_goals exact Or.inl rfl

/-- Along any sequence of handler calls a device stays present or absent, and a lifecycle
flag that is `DONE` stays `DONE`. -/
theorem runCalls_lifecycle (c : Consts) (k : OnuKey) :
    ∀ (calls : List Call) (m : OnuOmciStateMap),
      ((runCalls c calls m k).isSome = (m k).isSome) ∧
      (lifecycle? m k = some istate.DONE →
        lifecycle? (runCalls c calls m) k = some istate.DONE)
  | [], m => ⟨rfl, fun h => h⟩
  | call :: calls, m => by
    have ih := runCalls_lifecycle c k calls ((step c call m).map m)
    have hs := step_lifecycle c call m k
    simp only [runCalls]
    constructor
    · rw [ih.1]
      rcases hs with h | ⟨-, -, -, -, ⟨st, hst⟩, h⟩
      · simp only [lifecycle?] at h
        cases h1 : (step c call m).map m k <;> cases h2 : m k <;> simp [h1, h2] at h ⊢
      · simp only [lifecycle?] at h
        cases h1 : (step c call m).map m k <;> simp [h1, hst] at h ⊢
    · intro hd
      apply ih.2
      rcases hs with h | ⟨-, -, -, -, -, h⟩
      · rw [h]; exact hd
      · exact h

/-- C8: a fresh record starts `INCOMPLETE`; no call of a registered handler changes a
lifecycle flag from `DONE` to anything else; a call after which the flag of some device
differs from before is a `create` with class `GEMPortNetworkCTP` aimed at that device that
returned its frame without error; and `DONE` persists along every sequence of calls. -/
theorem lifecycle_monotone (c : Consts) :
    NewOnuOmciState.state = istate.INCOMPLETE ∧
    (∀ (call : Call) (m : OnuOmciStateMap) (k : OnuKey),
      (lifecycle? m k = some istate.DONE →
        lifecycle? ((step c call m).map m) k = some istate.DONE) ∧
      (lifecycle? ((step c call m).map m) k ≠ lifecycle? m k →
        call.msgType = OmciMsgType.Create ∧ call.class_ = c.GEMPortNetworkCTP ∧
        call.key = k ∧ (∃ m', step c call m = .ok createPkt m') ∧
        lifecycle? m k = some istate.INCOMPLETE ∧
        lifecycle? ((step c call m).map m) k = some istate.DONE)) ∧
    (∀ (calls : List Call) (m : OnuOmciStateMap) (k : OnuKey),
      lifecycle? m k = some istate.DONE →
        lifecycle? (runCalls c calls m) k = some istate.DONE) := by
  refine ⟨rfl, fun call m k => ⟨fun hd => ?_, fun hne => ?_⟩, fun calls m k =>
    (runCalls_lifecycle c k calls m).2⟩
  · rcases step_lifecycle c call m k with h | ⟨-, -, -, -, -, h⟩
    · rw [h]; exact hd
    · exact h
  · rcases step_lifecycle c call m k with h | ⟨h1, h2, h3, h4, ⟨st, hst⟩, h5⟩
    · exact absurd h hne
    · refine ⟨h1, h2, h3, h4, ?_, h5⟩
      rw [h5] at hne
      simp only [lifecycle?, hst, Option.map_some'] at hne ⊢
      cases hs : st.state with
      | INCOMPLETE => rfl
      | DONE => simp [hs] at hne

/-- Witness for C8: on device (0, 1) holding `stGemDone` the flag is still `DONE` after a
reset, a get-next and a create; on device (0, 2) holding a fresh record the flag changes
in a create with the class `GEMPortNetworkCTP` (here 268). -/
theorem lifecycle_monotone_witness :
    lifecycle? (runCalls ⟨268, 67⟩
      [⟨OmciMsgType.MibReset, 0, ⟨0x00, 0x00, []⟩, ⟨0, 1⟩⟩,
       ⟨OmciMsgType.MibUploadNext, 0, ⟨0x00, 0x1b, []⟩, ⟨0, 1⟩⟩,
       ⟨OmciMsgType.Create, 268, ⟨0x00, 0x0c, []⟩, ⟨0, 1⟩⟩]
      (singleton ⟨0, 1⟩ stGemDone)) ⟨0, 1⟩ = some istate.DONE ∧
    lifecycle? ((step ⟨268, 67⟩ ⟨OmciMsgType.Delete, 268, ⟨0x00, 0x00, []⟩, ⟨0, 1⟩⟩
      (singleton ⟨0, 1⟩ stGemDone)).map (singleton ⟨0, 1⟩ stGemDone)) ⟨0, 1⟩ =
      some istate.DONE ∧
    lifecycle? (singleton ⟨0, 2⟩ NewOnuOmciState) ⟨0, 2⟩ = some istate.INCOMPLETE ∧
    lifecycle? ((step ⟨268, 67⟩ ⟨OmciMsgType.Create, 268, ⟨0x00, 0x0b, []⟩, ⟨0, 2⟩⟩
      (singleton ⟨0, 2⟩ NewOnuOmciState)).map (singleton ⟨0, 2⟩ NewOnuOmciState)) ⟨0, 2⟩ =
      some istate.DONE :=
  ⟨(lifecycle_monotone ⟨268, 67⟩).2.2 _ (singleton ⟨0, 1⟩ stGemDone) ⟨0, 1⟩ (by decide),
    ((lifecycle_monotone ⟨268, 67⟩).2.1 ⟨OmciMsgType.Delete, 268, ⟨0x00, 0x00, []⟩, ⟨0, 1⟩⟩
      (singleton ⟨0, 1⟩ stGemDone) ⟨0, 1⟩).1 (by decide),
    (((lifecycle_monotone ⟨268, 67⟩).2.1 ⟨OmciMsgType.Create, 268, ⟨0x00, 0x0b, []⟩, ⟨0, 2⟩⟩
      (singleton ⟨0, 2⟩ NewOnuOmciState) ⟨0, 2⟩).2 (by decide)).2.2.2.2.1,
    (((lifecycle_monotone ⟨268, 67⟩).2.1 ⟨OmciMsgType.Create, 268, ⟨0x00, 0x0b, []⟩, ⟨0, 2⟩⟩
      (singleton ⟨0, 2⟩ NewOnuOmciState) ⟨0, 2⟩).2 (by decide)).2.2.2.2.2⟩

/-! ## The catalogue -/

/-- Stamping a byte other than bytes 8 and 9 leaves the class identifier as it is. -/
theorem classId_set (pkt : List Nat) (j x : Nat) (h8 : j ≠ 8) (h9 : j ≠ 9) :
    classId (pkt.set j x) = classId pkt := by
  simp only [classId, List.getElem?_set_ne h8, List.getElem?_set_ne h9]

/-- For every command number up to 66 the switch builds a frame whose class identifier is
the documented one, whatever the record. -/
theorem mibUploadNextSwitch_classId (i : Nat) (hi : i ≤ 66) (st : OnuOmciState) :
    (mibUploadNextSwitch i st).map (fun r => classId r.1) = some (some (catalogueClass i)) := by
  interval_cases i <;> simp [mibUploadNextSwitch, classId_set] <;> decide

/-- C9: for a present device, any record and any content whose first two bytes decode to
an index `i` in 0..66, `mibUploadNext` returns a frame without error, and bytes 8-9 of the
frame (big-endian) are the class identifier the catalogue documents for `i`: 0 -> 2;
1..8 -> 6; 9..12 -> 11; 13..20 -> 262; 21 -> 263; 22..25 -> 264; 26..57 -> 277;
58..65 -> 278; 66 -> 257. -/
theorem mibUploadNext_classId (class_ : OmciClass) (c0 c1 : Nat) (rest : List Nat)
    (key : OnuKey) (m : OnuOmciStateMap) (st : OnuOmciState) (i : Nat)
    (hpresent : m key = some st) (hi : i ≤ 66) (hdec : BigEndianUint16 c0 c1 = i) :
    ∃ pkt m', mibUploadNext class_ ⟨c0, c1, rest⟩ key m = .ok pkt m' ∧
      classId pkt = some (catalogueClass i) ∧
      catalogueClass i =
        (if i = 0 then 2 else if i ≤ 8 then 6 else if i ≤ 12 then 11
         else if i ≤ 20 then 262 else if i = 21 then 263 else if i ≤ 25 then 264
         else if i ≤ 57 then 277 else if i ≤ 65 then 278 else 257) := by
  have hcls := mibUploadNextSwitch_classId i hi st
  cases hsw : mibUploadNextSwitch i st with
  | none => simp [hsw] at hcls
  | some p =>
    obtain ⟨pkt, st'⟩ := p
    simp only [hsw, Option.map_some', Option.some.injEq] at hcls
    refine ⟨pkt, m.put key { st' with mibUploadCtr := uint16 (st'.mibUploadCtr + 1) }, ?_,
      hcls, rfl⟩
    rw [mibUploadNext_present class_ c0 c1 rest key m st hpresent, hdec, hsw]

/-- Witness for C9: device (0, 1) with a fresh record, content 0x00 0x0d (index 13, a
T-CONT, class 262). -/
theorem mibUploadNext_classId_witness :
    BigEndianUint16 0x00 0x0d = 13 ∧ catalogueClass 13 = 262 ∧
    ∃ pkt m', mibUploadNext 0 ⟨0x00, 0x0d, []⟩ ⟨0, 1⟩ (singleton ⟨0, 1⟩ NewOnuOmciState) =
        .ok pkt m' ∧
      classId pkt = some (catalogueClass 13) ∧
      catalogueClass 13 =
        (if 13 = 0 then 2 else if 13 ≤ 8 then 6 else if 13 ≤ 12 then 11
         else if 13 ≤ 20 then 262 else if 13 = 21 then 263 else if 13 ≤ 25 then 264
         else if 13 ≤ 57 then 277 else if 13 ≤ 65 then 278 else 257) :=
  ⟨by decide, by decide,
    mibUploadNext_classId 0 0x00 0x0d [] ⟨0, 1⟩ (singleton ⟨0, 1⟩ NewOnuOmciState)
      NewOnuOmciState 13 (by decide) (by decide) (by decide)⟩

/-! ## The full upload -/

/-- From a fresh record the command numbers 0, 1, .., 66 in order all yield a frame; the 67
frames are pairwise distinct and the record ends as `stAfterUpload`. -/
theorem uploadSteps_full :
    (uploadSteps (List.range 67) NewOnuOmciState).map
      (fun r => (r.1.length, decide r.1.Nodup, r.2)) = some (67, true, stAfterUpload) := by
  decide

/-- C10: on a device with a fresh record, get-next calls with indices 0, 1, .., 66 in
increasing order (any classes, any bytes after the index) all return a frame without
error, and the 67 frames returned are pairwise distinct. -/
theorem upload_frames_distinct (key : OnuKey) (m : OnuOmciStateMap)
    (calls : List (OmciClass × OmciContent))
    (hfresh : m key = some NewOnuOmciState)
    (hcalls : calls.map (fun c => commandNumber? c.2) = (List.range 67).map some) :
    ∃ pkts mf, uploadSeq key calls m = some (pkts, mf) ∧ pkts.length = 67 ∧
      pkts.Pairwise (fun p q => p ≠ q) := by
  have hfull := uploadSteps_full
  cases hs : uploadSteps (List.range 67) NewOnuOmciState with
  | none => simp [hs] at hfull
  | some r =>
    obtain ⟨pkts, stf⟩ := r
    simp only [hs, Option.map_some', Option.some.injEq, Prod.mk.injEq,
      decide_eq_true_eq] at hfull
    exact ⟨pkts, m.put key stf,
      uploadSeq_of_uploadSteps key calls (List.range 67) m NewOnuOmciState stf pkts hfresh
        hcalls hs, hfull.1, hfull.2.1⟩

/-- Witness for C10: device (0, 1) with a fresh record, class 0 and the two-byte contents
0x00 0x00, 0x00 0x01, .., 0x00 0x42. -/
theorem upload_frames_distinct_witness :
    ∃ pkts mf,
      uploadSeq ⟨0, 1⟩ ((List.range 67).map (fun i => (0, OmciContent.mk 0x00 i [])))
        (singleton ⟨0, 1⟩ NewOnuOmciState) = some (pkts, mf) ∧
      pkts.length = 67 ∧ pkts.Pairwise (fun p q => p ≠ q) :=
  upload_frames_distinct ⟨0, 1⟩ (singleton ⟨0, 1⟩ NewOnuOmciState)
    ((List.range 67).map (fun i => (0, OmciContent.mk 0x00 i []))) (by decide) (by decide)

/-! ## The count of successful upload steps -/

/-- A successful step adds one, modulo 2^16, to `mibUploadCtr` and leaves the overflow
counter, the lifecycle flag and the port identifier alone. -/
theorem uploadStep_ctr {n : Nat} {st st' : OnuOmciState} {pkt : List Nat}
    (h : uploadStep n st = some (pkt, st')) :
    st'.mibUploadCtr = (st.mibUploadCtr + 1) % 2 ^ 16 ∧
    st'.extraMibUploadCtr = st.extraMibUploadCtr ∧
    st'.state = st.state ∧ st'.gemPortId = st.gemPortId := by
  unfold uploadStep at h
  cases hsw : mibUploadNextSwitch n st with
  | none => simp [hsw] at h
  | some p =>
    obtain ⟨q, st1⟩ := p
    simp only [hsw, Option.some.injEq, Prod.mk.injEq] at h
    obtain ⟨-, rfl⟩ := h
    obtain ⟨h1, h2, h3, h4⟩ := mibUploadNextSwitch_frame hsw
    exact ⟨by simp [uint16, h3], h4, h1, h2⟩

/-- Every command number up to 66 is a successful step. -/
theorem uploadStep_isSome (n : Nat) (hn : n ≤ 66) (st : OnuOmciState) :
    ∃ pkt st', uploadStep n st = some (pkt, st') := by
  cases hsw : mibUploadNextSwitch n st with
  | none =>
    have := (mibUploadNextSwitch_eq_none_iff n st).1 hsw
    omega
  | some p =>
    obtain ⟨pkt, st'⟩ := p
    exact ⟨pkt, { st' with mibUploadCtr := uint16 (st'.mibUploadCtr + 1) },
      by simp [uploadStep, hsw]⟩

/-- A run of command numbers up to 66 succeeds throughout and adds its length, modulo
2^16, to `mibUploadCtr`. -/
theorem uploadSteps_ctr :
    ∀ (ns : List Nat) (st : OnuOmciState), st.mibUploadCtr < 2 ^ 16 → (∀ n ∈ ns, n ≤ 66) →
      ∃ pkts stf, uploadSteps ns st = some (pkts, stf) ∧ pkts.length = ns.length ∧
        stf.mibUploadCtr = (st.mibUploadCtr + ns.length) % 2 ^ 16 ∧
        stf.extraMibUploadCtr = st.extraMibUploadCtr
  | [], st, hwf, _ => ⟨[], st, rfl, rfl, (Nat.mod_eq_of_lt hwf).symm, rfl⟩
  | n :: ns, st, _, h => by
    obtain ⟨pkt, st1, h1⟩ := uploadStep_isSome n (h n (List.mem_cons_self _ _)) st
    obtain ⟨c1, c2, -, -⟩ := uploadStep_ctr h1
    obtain ⟨pkts, stf, h2, hlen, hctr, hex⟩ :=
      uploadSteps_ctr ns st1 (by rw [c1]; exact Nat.mod_lt _ (by decide))
        (fun x hx => h x (List.mem_cons_of_mem _ hx))
    refine ⟨pkt :: pkts, stf, by simp [uploadSteps, h1, h2], by simp [hlen], ?_, by rw [hex, c2]⟩
    rw [hctr, c1, List.length_cons]
    omega

/-- C11, as stated, fails: on the present device (0, 1) whose `mibUploadCtr` is 65535, the
get-next call with content bytes 0x00 0x00 (index 0) returns a frame without error, and
`mibUploadCtr` is 0 afterwards: not 65535 + 1, and lower than before. -/
theorem mibUploadCtr_wrap_counterexample :
    stCtrMax.WF ∧ BigEndianUint16 0x00 0x00 = 0 ∧
    (mibUploadNext 0 ⟨0x00, 0x00, []⟩ ⟨0, 1⟩ (singleton ⟨0, 1⟩ stCtrMax)).seen =
      (some pktOntData, none) ∧
    ((mibUploadNext 0 ⟨0x00, 0x00, []⟩ ⟨0, 1⟩ (singleton ⟨0, 1⟩ stCtrMax)).map
      (singleton ⟨0, 1⟩ stCtrMax) ⟨0, 1⟩).map (fun s => s.mibUploadCtr) = some 0 ∧
    ((mibUploadNext 0 ⟨0x00, 0x00, []⟩ ⟨0, 1⟩ (singleton ⟨0, 1⟩ stCtrMax)).map
      (singleton ⟨0, 1⟩ stCtrMax) ⟨0, 1⟩).map (fun s => s.mibUploadCtr) ≠
      some (stCtrMax.mibUploadCtr + 1) ∧
    0 < stCtrMax.mibUploadCtr := by
  decide

/-- C11, amended: for a present device, any record and any index in 0..66,
`mibUploadNext` returns a frame and `mibUploadCtr` becomes its previous value plus one
modulo 2^16: exactly one greater when it was below 65535, and 0 when it was 65535;
`extraMibUploadCtr` is unchanged by the successful call. Hence a sequence of `n`
get-next calls with indices in 0..66 succeeds throughout and ends with `mibUploadCtr`
equal to the start value plus `n` modulo 2^16, which is the start value plus `n` (no
decrease) as long as that stays below 2^16. -/
theorem mibUploadCtr_successor (key : OnuKey) (m : OnuOmciStateMap) (st : OnuOmciState)
    (hpresent : m key = some st) :
    (∀ (class_ : OmciClass) (c0 c1 : Nat) (rest : List Nat) (i : Nat),
      i ≤ 66 → BigEndianUint16 c0 c1 = i →
      ∃ pkt st', mibUploadNext class_ ⟨c0, c1, rest⟩ key m = .ok pkt (m.put key st') ∧
        st'.mibUploadCtr = (st.mibUploadCtr + 1) % 2 ^ 16 ∧
        (st.mibUploadCtr < 65535 → st'.mibUploadCtr = st.mibUploadCtr + 1) ∧
        (st.mibUploadCtr = 65535 → st'.mibUploadCtr = 0) ∧
        st'.extraMibUploadCtr = st.extraMibUploadCtr) ∧
    (∀ (calls : List (OmciClass × OmciContent)) (ns : List Nat),
      st.mibUploadCtr < 2 ^ 16 →
      calls.map (fun c => commandNumber? c.2) = ns.map some → (∀ n ∈ ns, n ≤ 66) →
      ∃ pkts stf, uploadSeq key calls m = some (pkts, m.put key stf) ∧
        pkts.length = ns.length ∧
        stf.mibUploadCtr = (st.mibUploadCtr + ns.length) % 2 ^ 16 ∧
        (st.mibUploadCtr + ns.length < 2 ^ 16 →
          stf.mibUploadCtr = st.mibUploadCtr + ns.length) ∧
        stf.extraMibUploadCtr = st.extraMibUploadCtr) := by
  constructor
  · intro class_ c0 c1 rest i hi hdec
    obtain ⟨pkt, st', hs⟩ := uploadStep_isSome i hi st
    obtain ⟨h1, h2, -, -⟩ := uploadStep_ctr hs
    refine ⟨pkt, st', mibUploadNext_of_uploadStep hpresent (by simp [commandNumber?, hdec]) hs,
      h1, ?_, ?_, h2⟩
    · intro h; rw [h1]; omega
    · intro h; rw [h1]; omega
  · intro calls ns hwf hcalls hns
    obtain ⟨pkts, stf, hs, hlen, hctr, hex⟩ := uploadSteps_ctr ns st hwf hns
    refine ⟨pkts, stf, uploadSeq_of_uploadSteps key calls ns m st stf pkts hpresent hcalls hs,
      hlen, hctr, ?_, hex⟩
    intro h
    rw [hctr]
    exact Nat.mod_eq_of_lt h

/-- Witness for C11 amended: device (0, 1) with a fresh record; the single call with
content 0x00 0x09, and the three calls 0x00 0x09, 0x00 0x0a, 0x00 0x0b. -/
theorem mibUploadCtr_successor_witness :
    (∃ pkt st', mibUploadNext 0 ⟨0x00, 0x09, []⟩ ⟨0, 1⟩ (singleton ⟨0, 1⟩ NewOnuOmciState) =
        .ok pkt ((singleton ⟨0, 1⟩ NewOnuOmciState).put ⟨0, 1⟩ st') ∧
      st'.mibUploadCtr = (0 + 1) % 2 ^ 16 ∧
      (0 < 65535 → st'.mibUploadCtr = 0 + 1) ∧
      (0 = 65535 → st'.mibUploadCtr = 0) ∧
      st'.extraMibUploadCtr = 0) ∧
    (∃ pkts stf,
      uploadSeq ⟨0, 1⟩ [(0, ⟨0x00, 0x09, []⟩), (0, ⟨0x00, 0x0a, []⟩), (0, ⟨0x00, 0x0b, []⟩)]
        (singleton ⟨0, 1⟩ NewOnuOmciState) =
        some (pkts, (singleton ⟨0, 1⟩ NewOnuOmciState).put ⟨0, 1⟩ stf) ∧
      pkts.length = 3 ∧
      stf.mibUploadCtr = (0 + 3) % 2 ^ 16 ∧
      (0 + 3 < 2 ^ 16 → stf.mibUploadCtr = 0 + 3) ∧
      stf.extraMibUploadCtr = 0) :=
  ⟨(mibUploadCtr_successor ⟨0, 1⟩ (singleton ⟨0, 1⟩ NewOnuOmciState) NewOnuOmciState
      (by decide)).1 0 0x00 0x09 [] 9 (by decide) (by decide),
    (mibUploadCtr_successor ⟨0, 1⟩ (singleton ⟨0, 1⟩ NewOnuOmciState) NewOnuOmciState
      (by decide)).2 [(0, ⟨0x00, 0x09, []⟩), (0, ⟨0x00, 0x0a, []⟩), (0, ⟨0x00, 0x0b, []⟩)] [9, 10, 11]
      (by decide) (by decide) (by decide)⟩

/-! ## Stateless handlers and frame length -/

/-- C12: for every class, content, device key and map (device present or absent, any
record), `mibUpload` returns without error the frame that has `NumMibUploads` in byte 9,
0x02 in byte 5 and 0 in the other 46 of its 48 bytes, and it returns the map it was given. -/
theorem mibUpload_frame (c : Consts) (class_ : OmciClass) (content : OmciContent)
    (key : OnuKey) (m : OnuOmciStateMap) :
    mibUpload c class_ content key m =
      .ok (((List.replicate 48 0).set 5 0x02).set 9 c.NumMibUploads) m ∧
    (((List.replicate 48 0).set 5 0x02).set 9 c.NumMibUploads)[9]? = some c.NumMibUploads ∧
    (((List.replicate 48 0).set 5 0x02).set 9 c.NumMibUploads).length = 48 ∧
    mibUploadPkt = (List.replicate 48 0).set 5 0x02 ∧
    (mibUpload c class_ content key m).map m = m :=
  ⟨rfl, rfl, rfl, rfl, rfl⟩

/-- C13: each of `set`, `get`, `getAllAlarms`, `getAllAlarmsNext`, `syncTime`, `delete`
and `reboot` returns, for every class, content, device key and map, its own template
without error and the map it was given; two calls of the same handler with any two
argument lists hand back the same pair. -/
theorem stateless_handlers_constant (class_ class' : OmciClass) (content content' : OmciContent)
    (key key' : OnuKey) (m m' : OnuOmciStateMap) :
    (set class_ content key m = .ok setPkt m ∧
      get class_ content key m = .ok getPkt m ∧
      getAllAlarms class_ content key m = .ok getAllAlarmsPkt m ∧
      getAllAlarmsNext class_ content key m = .ok getAllAlarmsNextPkt m ∧
      syncTime class_ content key m = .ok syncTimePkt m ∧
      delete class_ content key m = .ok deletePkt m ∧
      reboot class_ content key m = .ok rebootPkt m) ∧
    ((set class_ content key m).seen = (set class' content' key' m').seen ∧
      (get class_ content key m).seen = (get class' content' key' m').seen ∧
      (getAllAlarms class_ content key m).seen = (getAllAlarms class' content' key' m').seen ∧
      (getAllAlarmsNext class_ content key m).seen =
        (getAllAlarmsNext class' content' key' m').seen ∧
      (syncTime class_ content key m).seen = (syncTime class' content' key' m').seen ∧
      (delete class_ content key m).seen = (delete class' content' key' m').seen ∧
      (reboot class_ content key m).seen = (reboot class' content' key' m').seen) :=
  ⟨⟨rfl, rfl, rfl, rfl, rfl, rfl, rfl⟩, ⟨rfl, rfl, rfl, rfl, rfl, rfl, rfl⟩⟩

/-- Every frame the switch builds has 48 bytes: stamping a byte keeps the length of the
template. -/
theorem mibUploadNextSwitch_length {n : Nat} {st st' : OnuOmciState} {pkt : List Nat}
    (h : mibUploadNextSwitch n st = some (pkt, st')) : pkt.length = 48 := by
  have hn : n ≤ 66 := by
    by_contra hn
    rw [(mibUploadNextSwitch_eq_none_iff n st).2 (by omega)] at h
    cases h
  interval_cases n <;> simp [mibUploadNextSwitch] at h <;> obtain ⟨rfl, -⟩ := h <;>
    rfl

/-- C14: every frame returned on a non-error path by any of the eleven registered handlers
is exactly 48 bytes long, for every input and every map, the 67 catalogue entries of
`mibUploadNext` after stamping included. -/
theorem handler_frame_length (c : Consts) (t : OmciMsgType) (class_ : OmciClass)
    (content : OmciContent) (key : OnuKey) (m m' : OnuOmciStateMap) (pkt : List Nat)
    (h : Handlers c t class_ content key m = .ok pkt m') : pkt.length = 48 := by
  cases t
  case MibUploadNext =>
    simp only [Handlers] at h
    obtain ⟨c0, c1, rest⟩ := content
    cases hm : m key with
    | none => simp [mibUploadNext, hm] at h
    | some st =>
      rw [mibUploadNext_present class_ c0 c1 rest key m st hm] at h
      cases hsw : mibUploadNextSwitch (BigEndianUint16 c0 c1) st with
      | none => simp [hsw] at h
      | some p =>
        obtain ⟨q, st'⟩ := p
        simp only [hsw, Result.ok.injEq] at h
        obtain ⟨rfl, -⟩ := h
        exact mibUploadNextSwitch_length hsw
  case MibReset =>
    simp only [Handlers, mibReset] at h
    split at h <;> (injection h with h1 h2; subst h1; rfl)
  case MibUpload =>
    simp only [Handlers, mibUpload] at h
    injection h with h1 h2
    subst h1
    rfl
  case Create =>
    simp only [Handlers] at h
    have := (show ∀ p mm, create c class_ content key m = .ok p mm → p = createPkt from by
      intro p mm hp
      unfold create at hp
      split at hp
      · split at hp
        · cases hp
        · injection hp with h1 h2; exact h1.symm
      · injection hp with h1 h2; exact h1.symm) pkt m' h
    subst this
    rfl
  all_goals
    simp only [Handlers, set, get, getAllAlarms, getAllAlarmsNext, syncTime, delete, reboot] at h
    injection h with h1 h2
    subst h1
    rfl

/-- Witness for C14: the get-next call with content 0x00 0x1b (index 27, three bytes
stamped) on device (0, 1) holding `stAfterFirstMask`. -/
theorem handler_frame_length_witness :
    Handlers ⟨268, 67⟩ OmciMsgType.MibUploadNext 0 ⟨0x00, 0x1b, []⟩ ⟨0, 1⟩
        (singleton ⟨0, 1⟩ stAfterFirstMask) =
      .ok (((pktPriorQAttrDown.set 11 1).set 24 7).set 28 7)
        ((singleton ⟨0, 1⟩ stAfterFirstMask).put ⟨0, 1⟩
          { stAfterFirstMask with tcontInstance := 7, mibUploadCtr := 28 }) ∧
    ((((pktPriorQAttrDown.set 11 1).set 24 7).set 28 7) : List Nat).length = 48 :=
  ⟨@mibUploadNext_of_uploadStep 0 ⟨0x00, 0x1b, []⟩ ⟨0, 1⟩ (singleton ⟨0, 1⟩ stAfterFirstMask)
      stAfterFirstMask { stAfterFirstMask with tcontInstance := 7, mibUploadCtr := 28 } 27
      (((pktPriorQAttrDown.set 11 1).set 24 7).set 28 7) (by decide) (by decide) (by decide),
    handler_frame_length ⟨268, 67⟩ OmciMsgType.MibUploadNext 0 ⟨0x00, 0x1b, []⟩ ⟨0, 1⟩
      (singleton ⟨0, 1⟩ stAfterFirstMask)
      ((singleton ⟨0, 1⟩ stAfterFirstMask).put ⟨0, 1⟩
        { stAfterFirstMask with tcontInstance := 7, mibUploadCtr := 28 })
      (((pktPriorQAttrDown.set 11 1).set 24 7).set 28 7)
      (@mibUploadNext_of_uploadStep 0 ⟨0x00, 0x1b, []⟩ ⟨0, 1⟩ (singleton ⟨0, 1⟩ stAfterFirstMask)
        stAfterFirstMask { stAfterFirstMask with tcontInstance := 7, mibUploadCtr := 28 } 27
        (((pktPriorQAttrDown.set 11 1).set 24 7).set 28 7) (by decide) (by decide)
        (by decide))⟩

/-! ## Independence of devices -/

/-- A handler call writes at most the record stored under the key it is aimed at. -/
theorem step_other (c : Consts) (call : Call) (m : OnuOmciStateMap) (k : OnuKey)
    (hk : k ≠ call.key) : (step c call m).map m k = m k := by
  obtain ⟨t, class_, content, key⟩ := call
  simp only at hk
  cases t
  case MibReset =>
    simp only [step, Handlers]
    cases hm : m key with
    | none => rw [mibReset_absent class_ content key m hm]; rfl
    | some st =>
      rw [mibReset_present class_ content key m st hm]
      exact put_other m _ hk
  case MibUploadNext =>
    simp only [step, Handlers]
    obtain ⟨c0, c1, rest⟩ := content
    cases hm : m key with
    | none => simp [mibUploadNext, hm, Result.map]
    | some st =>
      rw [mibUploadNext_present class_ c0 c1 rest key m st hm]
      cases hsw : mibUploadNextSwitch (BigEndianUint16 c0 c1) st with
      | none => exact put_other m _ hk
      | some p => exact put_other m _ hk
  case Create =>
    simp only [step, Handlers]
    by_cases hc : class_ = c.GEMPortNetworkCTP
    · subst hc
      cases hm : m key with
      | none => rw [create_gem_absent c content key m hm]; rfl
      | some st =>
        obtain ⟨b0, b1, rest⟩ := content
        rw [create_gem_present c b0 b1 rest key m st hm]
        exact put_other m _ hk
    · rw [create_other c class_ content key m hc]; rfl
  all_goals rfl

/-- What a handler call hands back, and the record it leaves under its key, depend only
on the record stored under that key. -/
theorem step_local (c : Consts) (call : Call) (m₁ m₂ : OnuOmciStateMap)
    (h : m₁ call.key = m₂ call.key) :
    (step c call m₁).seen = (step c call m₂).seen ∧
    (step c call m₁).map m₁ call.key = (step c call m₂).map m₂ call.key := by
  obtain ⟨t, class_, content, key⟩ := call
  simp only at h
  cases t
  case MibReset =>
    simp only [step, Handlers]
    cases hm : m₂ key with
    | none =>
      rw [mibReset_absent class_ content key m₁ (h.trans hm),
        mibReset_absent class_ content key m₂ hm]
      exact ⟨rfl, h⟩
    | some st =>
      rw [mibReset_present class_ content key m₁ st (h.trans hm),
        mibReset_present class_ content key m₂ st hm]
      exact ⟨rfl, by simp [Result.map, put_same]⟩
  case MibUploadNext =>
    simp only [step, Handlers]
    obtain ⟨c0, c1, rest⟩ := content
    cases hm : m₂ key with
    | none => simp [mibUploadNext, hm, h.trans hm, Result.map, Result.seen]
    | some st =>
      rw [mibUploadNext_present class_ c0 c1 rest key m₁ st (h.trans hm),
        mibUploadNext_present class_ c0 c1 rest key m₂ st hm]
      cases hsw : mibUploadNextSwitch (BigEndianUint16 c0 c1) st with
      | none => exact ⟨rfl, by simp [Result.map, put_same]⟩
      | some p => exact ⟨rfl, by simp [Result.map, put_same]⟩
  case Create =>
    simp only [step, Handlers]
    by_cases hc : class_ = c.GEMPortNetworkCTP
    · subst hc
      cases hm : m₂ key with
      | none =>
        rw [create_gem_absent c content key m₁ (h.trans hm),
          create_gem_absent c content key m₂ hm]
        exact ⟨rfl, h⟩
      | some st =>
        obtain ⟨b0, b1, rest⟩ := content
        rw [create_gem_present c b0 b1 rest key m₁ st (h.trans hm),
          create_gem_present c b0 b1 rest key m₂ st hm]
        exact ⟨rfl, by simp [Result.map, put_same]⟩
    · rw [create_other c class_ content key m₁ hc, create_other c class_ content key m₂ hc]
      exact ⟨rfl, h⟩
  all_goals exact ⟨rfl, h⟩

/-- The requests aimed at other devices can be dropped from a run without changing what
device `k` is handed back or the record it ends with. -/
theorem seenBy_filter (c : Consts) (k : OnuKey) :
    ∀ (calls : List Call) (m₁ m₂ : OnuOmciStateMap), m₁ k = m₂ k →
      seenBy c k calls m₁ = seenBy c k (calls.filter (fun x => decide (x.key = k))) m₂ ∧
      runCalls c calls m₁ k = runCalls c (calls.filter (fun x => decide (x.key = k))) m₂ k
  | [], _, _, h => ⟨rfl, h⟩
  | call :: calls, m₁, m₂, h => by
    by_cases hk : call.key = k
    · have hl := step_local c call m₁ m₂ (by rw [hk]; exact h)
      rw [hk] at hl
      have ih := seenBy_filter c k calls ((step c call m₁).map m₁) ((step c call m₂).map m₂) hl.2
      simp only [List.filter_cons, hk, decide_True, if_true, seenBy, runCalls]
      exact ⟨by rw [hl.1, ih.1], ih.2⟩
    · have ho := step_other c call m₁ k (fun e => hk e.symm)
      have ih := seenBy_filter c k calls ((step c call m₁).map m₁) m₂ (ho.trans h)
      simp only [List.filter_cons, hk, decide_False, seenBy, runCalls, if_false]
      simpa using ih

/-- C15: for two distinct device keys `k` and `k'`, a call of any registered handler aimed
at `k`, with any input and on any map, leaves the record stored for `k'` as it was; hence
in any run the pairs (frame, error) handed back to the calls aimed at `k'`, and the record
`k'` ends with, are those of the run with every call aimed at another device removed. -/
theorem handlers_touch_only_target (c : Consts) (k k' : OnuKey) (hne : k ≠ k') :
    (∀ (t : OmciMsgType) (class_ : OmciClass) (content : OmciContent) (m : OnuOmciStateMap),
      (Handlers c t class_ content k m).map m k' = m k') ∧
    (∀ (calls : List Call) (m : OnuOmciStateMap),
      seenBy c k' calls m = seenBy c k' (calls.filter (fun x => decide (x.key = k'))) m ∧
      runCalls c calls m k' =
        runCalls c (calls.filter (fun x => decide (x.key = k'))) m k') :=
  ⟨fun t class_ content m => step_other c ⟨t, class_, content, k⟩ m k' (fun e => hne e.symm),
    fun calls m => seenBy_filter c k' calls m m rfl⟩

/-- Witness for C15: devices (0, 1) and (0, 2), both fresh. A physical-port get-next
(content 0x00 0x09) on (0, 1) leaves the record of (0, 2) fresh, and (0, 2) is handed the
same answer to its own get-next whether or not the call on (0, 1) comes first. -/
theorem handlers_touch_only_target_witness :
    (Handlers ⟨268, 67⟩ OmciMsgType.MibUploadNext 0 ⟨0x00, 0x09, []⟩ ⟨0, 1⟩ twoFresh).map twoFresh
      ⟨0, 2⟩ = twoFresh ⟨0, 2⟩ ∧
    seenBy ⟨268, 67⟩ ⟨0, 2⟩
      [⟨OmciMsgType.MibUploadNext, 0, ⟨0x00, 0x09, []⟩, ⟨0, 1⟩⟩,
       ⟨OmciMsgType.MibUploadNext, 0, ⟨0x00, 0x09, []⟩, ⟨0, 2⟩⟩] twoFresh =
    seenBy ⟨268, 67⟩ ⟨0, 2⟩
      ([⟨OmciMsgType.MibUploadNext, 0, ⟨0x00, 0x09, []⟩, ⟨0, 1⟩⟩,
        ⟨OmciMsgType.MibUploadNext, 0, ⟨0x00, 0x09, []⟩, ⟨0, 2⟩⟩].filter
        (fun x => decide (x.key = ⟨0, 2⟩))) twoFresh :=
  ⟨(handlers_touch_only_target ⟨268, 67⟩ ⟨0, 1⟩ ⟨0, 2⟩ (by decide)).1
      OmciMsgType.MibUploadNext 0 ⟨0x00, 0x09, []⟩ twoFresh,
    ((handlers_touch_only_target ⟨268, 67⟩ ⟨0, 1⟩ ⟨0, 2⟩ (by decide)).2 _ twoFresh).1⟩

/-! ## Priority queues and the traffic-container counter -/

/-- The switch on a "downstream attribute list" command number: the queue counter is
stamped into byte 11, the traffic-container counter is decremented and the decremented
value is stamped into bytes 24 and 28. -/
theorem mibUploadNextSwitch_attrDown (n : Nat) (hn : n ∈ [27, 31, 35, 39, 43, 47, 51, 55])
    (st : OnuOmciState) :
    mibUploadNextSwitch n st =
      some (((pktPriorQAttrDown.set 11 st.priorQInstance).set 24
          (uint8 (st.tcontInstance + 2 ^ 8 - 1))).set 28 (uint8 (st.tcontInstance + 2 ^ 8 - 1)),
        { st with tcontInstance := uint8 (st.tcontInstance + 2 ^ 8 - 1) }) := by
  simp only [List.mem_cons, List.mem_singleton, List.not_mem_nil, or_false] at hn
  rcases hn with rfl | rfl | rfl | rfl | rfl | rfl | rfl | rfl <;> rfl

/-- C16, as stated, fails: on the present device (0, 1) with `tcontInstance = 8` (the
record after the get-next calls 0..26 from a fresh one), the get-next call with content
0x00 0x1b (index 27) returns a frame with 7 in bytes 24 and 28, and `tcontInstance` is 7
afterwards, not 8. -/
theorem tcontInstance_not_restored_counterexample :
    stAfterFirstMask.WF ∧
    (uploadSteps (List.range 27) NewOnuOmciState).map Prod.snd = some stAfterFirstMask ∧
    BigEndianUint16 0x00 0x1b = 27 ∧
    (mibUploadNext 0 ⟨0x00, 0x1b, []⟩ ⟨0, 1⟩ (singleton ⟨0, 1⟩ stAfterFirstMask)).seen =
      (some (((pktPriorQAttrDown.set 11 1).set 24 7).set 28 7), none) ∧
    ((mibUploadNext 0 ⟨0x00, 0x1b, []⟩ ⟨0, 1⟩ (singleton ⟨0, 1⟩ stAfterFirstMask)).map
      (singleton ⟨0, 1⟩ stAfterFirstMask) ⟨0, 1⟩).map (fun s => s.tcontInstance) = some 7 ∧
    ((mibUploadNext 0 ⟨0x00, 0x1b, []⟩ ⟨0, 1⟩ (singleton ⟨0, 1⟩ stAfterFirstMask)).map
      (singleton ⟨0, 1⟩ stAfterFirstMask) ⟨0, 1⟩).map (fun s => s.tcontInstance) ≠
      some stAfterFirstMask.tcontInstance := by
  decide

/-- C16, amended: for a present device, any record and every "downstream attribute list"
priority-queue index (27, 31, 35, 39, 43, 47, 51, 55), `mibUploadNext` returns a frame,
decrements the traffic-container counter by one modulo 2^8, stamps the decremented value
into bytes 24 and 28, and does not restore it: `tcontInstance` after the call is one below
its value before the call (255 when it was 0); the other fields except `mibUploadCtr` are
as before. -/
theorem attrDown_decrements_tcontInstance (class_ : OmciClass) (c0 c1 : Nat) (rest : List Nat)
    (key : OnuKey) (m : OnuOmciStateMap) (st : OnuOmciState)
    (hpresent : m key = some st)
    (hidx : BigEndianUint16 c0 c1 ∈ [27, 31, 35, 39, 43, 47, 51, 55]) :
    ∃ pkt st', mibUploadNext class_ ⟨c0, c1, rest⟩ key m = .ok pkt (m.put key st') ∧
      st'.tcontInstance = (st.tcontInstance + 255) % 2 ^ 8 ∧
      (0 < st.tcontInstance → st.tcontInstance < 2 ^ 8 →
        st'.tcontInstance + 1 = st.tcontInstance) ∧
      (st.tcontInstance = 0 → st'.tcontInstance = 255) ∧
      pkt[24]? = some st'.tcontInstance ∧ pkt[28]? = some st'.tcontInstance ∧
      pkt[11]? = some st.priorQInstance ∧
      st'.priorQInstance = st.priorQInstance ∧ st'.pptpInstance = st.pptpInstance ∧
      st'.uniGInstance = st.uniGInstance ∧ st'.gemPortId = st.gemPortId ∧
      st'.state = st.state ∧ st'.extraMibUploadCtr = st.extraMibUploadCtr := by
  have hsw := mibUploadNextSwitch_attrDown _ hidx st
  refine ⟨((pktPriorQAttrDown.set 11 st.priorQInstance).set 24
      (uint8 (st.tcontInstance + 2 ^ 8 - 1))).set 28 (uint8 (st.tcontInstance + 2 ^ 8 - 1)),
    { st with tcontInstance := uint8 (st.tcontInstance + 2 ^ 8 - 1),
              mibUploadCtr := uint16 (st.mibUploadCtr + 1) }, ?_, ?_, ?_, ?_,
    ?_, ?_, ?_, rfl, rfl, rfl, rfl, rfl, rfl⟩
  · rw [mibUploadNext_present class_ c0 c1 rest key m st hpresent, hsw]
  · simp only [uint8]; omega
  · intro h1 h2; simp only [uint8]; omega
  · intro h; simp only [uint8, h]; rfl
  · rfl
  · rfl
  · rfl

/-- Witness for C16 amended: device (0, 1) holding `stAfterFirstMask`, content 0x00 0x1b. -/
theorem attrDown_decrements_tcontInstance_witness :
    singleton ⟨0, 1⟩ stAfterFirstMask ⟨0, 1⟩ = some stAfterFirstMask ∧
    BigEndianUint16 0x00 0x1b ∈ [27, 31, 35, 39, 43, 47, 51, 55] ∧
    ∃ pkt st', mibUploadNext 0 ⟨0x00, 0x1b, []⟩ ⟨0, 1⟩ (singleton ⟨0, 1⟩ stAfterFirstMask) =
        .ok pkt ((singleton ⟨0, 1⟩ stAfterFirstMask).put ⟨0, 1⟩ st') ∧
      st'.tcontInstance = (8 + 255) % 2 ^ 8 ∧
      (0 < 8 → 8 < 2 ^ 8 → st'.tcontInstance + 1 = 8) ∧
      (8 = 0 → st'.tcontInstance = 255) ∧
      pkt[24]? = some st'.tcontInstance ∧ pkt[28]? = some st'.tcontInstance ∧
      pkt[11]? = some 1 ∧
      st'.priorQInstance = 1 ∧ st'.pptpInstance = 5 ∧
      st'.uniGInstance = 5 ∧ st'.gemPortId = 0 ∧
      st'.state = istate.INCOMPLETE ∧ st'.extraMibUploadCtr = 0 :=
  ⟨by decide, by decide,
    attrDown_decrements_tcontInstance 0 0x00 0x1b [] ⟨0, 1⟩
      (singleton ⟨0, 1⟩ stAfterFirstMask) stAfterFirstMask (by decide) (by decide)⟩

/-! ## Absent devices -/

/-- On an absent device `mibUploadNext` ends in a runtime panic, whatever the class and
the content: no error and no frame is handed back, and the map is as before. -/
theorem mibUploadNext_absent (class_ : OmciClass) (content : OmciContent) (key : OnuKey)
    (m : OnuOmciStateMap) (hm : m key = none) :
    mibUploadNext class_ content key m = .panic := by
  simp [mibUploadNext, hm]

/-- C17, the code at the failing input: the map holds device (0, 1) only. `mibUploadNext`
aimed at the absent device (0, 2) ends in a runtime panic (nil dereference), with content
0x00 0x00 (index 0) as with content 0x00 0x43 (index 67): no error and no frame is handed
back. On the same map and key the sibling handlers test the lookup: `create` with the
class `GEMPortNetworkCTP` (here 268) returns the error "ONU Key Error", `GetGemPortId`
returns the error "Failed to find a key", and `mibReset` returns its frame. -/
theorem mibUploadNext_absent_device_panics :
    singleton ⟨0, 1⟩ NewOnuOmciState ⟨0, 2⟩ = none ∧
    (mibUploadNext 0 ⟨0x00, 0x00, []⟩ ⟨0, 2⟩ (singleton ⟨0, 1⟩ NewOnuOmciState)).seen =
      (none, none) ∧
    (mibUploadNext 0 ⟨0x00, 0x00, []⟩ ⟨0, 2⟩ (singleton ⟨0, 1⟩ NewOnuOmciState)).err? = none ∧
    (mibUploadNext 0 ⟨0x00, 0x43, []⟩ ⟨0, 2⟩ (singleton ⟨0, 1⟩ NewOnuOmciState)).seen =
      (none, none) ∧
    (mibUploadNext 0 ⟨0x00, 0x43, []⟩ ⟨0, 2⟩ (singleton ⟨0, 1⟩ NewOnuOmciState)).err? = none ∧
    (create ⟨268, 67⟩ 268 ⟨0x00, 0x00, []⟩ ⟨0, 2⟩ (singleton ⟨0, 1⟩ NewOnuOmciState)).seen =
      (none, some OmciError.onuKeyError) ∧
    (GetGemPortId (singleton ⟨0, 1⟩ NewOnuOmciState) 0 2).1 =
      .error (OmciError.keyNotFound 0 2) ∧
    (mibReset 0 ⟨0x00, 0x00, []⟩ ⟨0, 2⟩ (singleton ⟨0, 1⟩ NewOnuOmciState)).seen =
      (some mibResetPkt, none) :=
  ⟨by decide, by decide, by decide, by decide, by decide, by decide, rfl, by decide⟩

/-! ## Counter trajectories over a full upload -/

/-- The full upload from a fresh record, evaluated: the frames carry the documented
traffic-container bytes and priority-queue instance identifiers, and the record ends as
`stAfterUpload`. -/
theorem uploadSteps_full_trajectory :
    (uploadSteps (List.range 67) NewOnuOmciState).map
      (fun r => (decide (tcontTrajectory r.1), decide (priorQNumbering r.1), r.2)) =
      some (true, true, stAfterUpload) := by
  decide

/-- C18: on a device with a fresh record, the get-next calls with indices 0..66 in order
all return a frame; the T-CONT frames (13..20) carry 0, 1, .., 7 in byte 11; in the `k`-th
priority-queue group (k = 1..8) both attribute-list frames carry `8 - k` in bytes 24 and
28; the traffic-scheduler frames (58..65) carry 0, 1, .., 7 in byte 15; and the final
record has tcontInstance = 8, priorQInstance = 8, pptpInstance = 5, uniGInstance = 5,
mibUploadCtr = 67 and extraMibUploadCtr = 0. -/
theorem tcont_trajectory_full_upload (key : OnuKey) (m : OnuOmciStateMap)
    (calls : List (OmciClass × OmciContent))
    (hfresh : m key = some NewOnuOmciState)
    (hcalls : calls.map (fun c => commandNumber? c.2) = (List.range 67).map some) :
    ∃ pkts stf, uploadSeq key calls m = some (pkts, m.put key stf) ∧
      (∀ j, j < 8 → byteAt pkts (13 + j) 11 = some j) ∧
      (∀ k, 1 ≤ k → k ≤ 8 →
        byteAt pkts (27 + 4 * (k - 1)) 24 = some (8 - k) ∧
        byteAt pkts (27 + 4 * (k - 1)) 28 = some (8 - k) ∧
        byteAt pkts (29 + 4 * (k - 1)) 24 = some (8 - k) ∧
        byteAt pkts (29 + 4 * (k - 1)) 28 = some (8 - k)) ∧
      (∀ j, j < 8 → byteAt pkts (58 + j) 15 = some j) ∧
      stf.tcontInstance = 8 ∧ stf.priorQInstance = 8 ∧ stf.pptpInstance = 5 ∧
      stf.uniGInstance = 5 ∧ stf.mibUploadCtr = 67 ∧ stf.extraMibUploadCtr = 0 := by
  have hfull := uploadSteps_full_trajectory
  cases hs : uploadSteps (List.range 67) NewOnuOmciState with
  | none => simp [hs] at hfull
  | some r =>
    obtain ⟨pkts, stf⟩ := r
    simp only [hs, Option.map_some', Option.some.injEq, Prod.mk.injEq,
      decide_eq_true_eq] at hfull
    obtain ⟨⟨h1, h2, h3⟩, -, rfl⟩ := hfull
    exact ⟨pkts, stAfterUpload,
      uploadSeq_of_uploadSteps key calls (List.range 67) m NewOnuOmciState stAfterUpload pkts
        hfresh hcalls hs, h1, h2, h3, rfl, rfl, rfl, rfl, rfl, rfl⟩

/-- Witness for C18: device (0, 1) with a fresh record, class 0 and the two-byte contents
0x00 0x00, 0x00 0x01, .., 0x00 0x42. -/
theorem tcont_trajectory_full_upload_witness :
    ∃ pkts stf,
      uploadSeq ⟨0, 1⟩ ((List.range 67).map (fun i => (0, OmciContent.mk 0x00 i [])))
        (singleton ⟨0, 1⟩ NewOnuOmciState) =
        some (pkts, (singleton ⟨0, 1⟩ NewOnuOmciState).put ⟨0, 1⟩ stf) ∧
      (∀ j, j < 8 → byteAt pkts (13 + j) 11 = some j) ∧
      (∀ k, 1 ≤ k → k ≤ 8 →
        byteAt pkts (27 + 4 * (k - 1)) 24 = some (8 - k) ∧
        byteAt pkts (27 + 4 * (k - 1)) 28 = some (8 - k) ∧
        byteAt pkts (29 + 4 * (k - 1)) 24 = some (8 - k) ∧
        byteAt pkts (29 + 4 * (k - 1)) 28 = some (8 - k)) ∧
      (∀ j, j < 8 → byteAt pkts (58 + j) 15 = some j) ∧
      stf.tcontInstance = 8 ∧ stf.priorQInstance = 8 ∧ stf.pptpInstance = 5 ∧
      stf.uniGInstance = 5 ∧ stf.mibUploadCtr = 67 ∧ stf.extraMibUploadCtr = 0 :=
  tcont_trajectory_full_upload ⟨0, 1⟩ (singleton ⟨0, 1⟩ NewOnuOmciState)
    ((List.range 67).map (fun i => (0, OmciContent.mk 0x00 i []))) (by decide) (by decide)

/-! ## Priority-queue instance numbering -/

/-- The switch on a "downstream mask" command number: the queue counter is incremented
first and the new value is stamped into byte 11. -/
theorem mibUploadNextSwitch_maskDown (n : Nat) (hn : n ∈ [26, 30, 34, 38, 42, 46, 50, 54])
    (st : OnuOmciState) :
    mibUploadNextSwitch n st =
      some (pktPriorQMaskDown.set 11 (uint8 (st.priorQInstance + 1)),
        { st with priorQInstance := uint8 (st.priorQInstance + 1) }) := by
  simp only [List.mem_cons, List.mem_singleton, List.not_mem_nil, or_false] at hn
  rcases hn with rfl | rfl | rfl | rfl | rfl | rfl | rfl | rfl <;> rfl

/-- The switch on an "upstream mask" command number: the queue counter is stamped into
byte 11 and the record is left alone. -/
theorem mibUploadNextSwitch_maskUp (n : Nat) (hn : n ∈ [28, 32, 36, 40, 44, 48, 52, 56])
    (st : OnuOmciState) :
    mibUploadNextSwitch n st = some (pktPriorQMaskUp.set 11 st.priorQInstance, st) := by
  simp only [List.mem_cons, List.mem_singleton, List.not_mem_nil, or_false] at hn
  rcases hn with rfl | rfl | rfl | rfl | rfl | rfl | rfl | rfl <;> rfl

/-- The switch on an "upstream attribute list" command number: the queue counter is
stamped into byte 11, the traffic-container counter into bytes 24 and 28, and the record
is left alone. -/
theorem mibUploadNextSwitch_attrUp (n : Nat) (hn : n ∈ [29, 33, 37, 41, 45, 49, 53, 57])
    (st : OnuOmciState) :
    mibUploadNextSwitch n st =
      some (((pktPriorQAttrUp.set 11 st.priorQInstance).set 24 st.tcontInstance).set 28
        st.tcontInstance, st) := by
  simp only [List.mem_cons, List.mem_singleton, List.not_mem_nil, or_false] at hn
  rcases hn with rfl | rfl | rfl | rfl | rfl | rfl | rfl | rfl <;> rfl

/-- C19: for a present device and any record, a "downstream mask" index (26, 30, .., 54)
first increments `priorQInstance` (modulo 2^8) and stamps the new value into byte 11; the
other three sub-variants stamp the current `priorQInstance` and leave it unchanged, the two
upstream ones changing no instance counter at all; and in the upload 0..66 from a fresh
record the four frames of the `k`-th group (k = 1..8) carry the instance identifiers
(bytes 10-11) 0x000k, 0x000k, 0x800k, 0x800k in that order. -/
theorem priorQ_instance_numbering (key : OnuKey) (m : OnuOmciStateMap) (st : OnuOmciState)
    (hpresent : m key = some st) :
    (∀ (class_ : OmciClass) (c0 c1 : Nat) (rest : List Nat),
      BigEndianUint16 c0 c1 ∈ [26, 30, 34, 38, 42, 46, 50, 54] →
      ∃ pkt st', mibUploadNext class_ ⟨c0, c1, rest⟩ key m = .ok pkt (m.put key st') ∧
        st'.priorQInstance = (st.priorQInstance + 1) % 2 ^ 8 ∧
        pkt[11]? = some st'.priorQInstance ∧ pkt[10]? = some 0x00 ∧
        st'.tcontInstance = st.tcontInstance ∧ st'.pptpInstance = st.pptpInstance ∧
        st'.uniGInstance = st.uniGInstance) ∧
    (∀ (class_ : OmciClass) (c0 c1 : Nat) (rest : List Nat),
      BigEndianUint16 c0 c1 ∈ [27, 31, 35, 39, 43, 47, 51, 55] →
      ∃ pkt st', mibUploadNext class_ ⟨c0, c1, rest⟩ key m = .ok pkt (m.put key st') ∧
        st'.priorQInstance = st.priorQInstance ∧
        pkt[11]? = some st.priorQInstance ∧ pkt[10]? = some 0x00) ∧
    (∀ (class_ : OmciClass) (c0 c1 : Nat) (rest : List Nat),
      BigEndianUint16 c0 c1 ∈ [28, 32, 36, 40, 44, 48, 52, 56] →
      ∃ pkt st', mibUploadNext class_ ⟨c0, c1, rest⟩ key m = .ok pkt (m.put key st') ∧
        st'.priorQInstance = st.priorQInstance ∧
        pkt[11]? = some st.priorQInstance ∧ pkt[10]? = some 0x80 ∧
        st'.tcontInstance = st.tcontInstance ∧ st'.pptpInstance = st.pptpInstance ∧
        st'.uniGInstance = st.uniGInstance) ∧
    (∀ (class_ : OmciClass) (c0 c1 : Nat) (rest : List Nat),
      BigEndianUint16 c0 c1 ∈ [29, 33, 37, 41, 45, 49, 53, 57] →
      ∃ pkt st', mibUploadNext class_ ⟨c0, c1, rest⟩ key m = .ok pkt (m.put key st') ∧
        st'.priorQInstance = st.priorQInstance ∧
        pkt[11]? = some st.priorQInstance ∧ pkt[10]? = some 0x80 ∧
        st'.tcontInstance = st.tcontInstance ∧ st'.pptpInstance = st.pptpInstance ∧
        st'.uniGInstance = st.uniGInstance) ∧
    (st = NewOnuOmciState →
      ∀ (calls : List (OmciClass × OmciContent)),
        calls.map (fun c => commandNumber? c.2) = (List.range 67).map some →
        ∃ pkts stf, uploadSeq key calls m = some (pkts, m.put key stf) ∧
          ∀ k, 1 ≤ k → k ≤ 8 →
            instanceIdAt pkts (26 + 4 * (k - 1)) = some k ∧
            instanceIdAt pkts (27 + 4 * (k - 1)) = some k ∧
            instanceIdAt pkts (28 + 4 * (k - 1)) = some (0x8000 + k) ∧
            instanceIdAt pkts (29 + 4 * (k - 1)) = some (0x8000 + k)) := by
  refine ⟨?_, ?_, ?_, ?_, ?_⟩
  · intro class_ c0 c1 rest hidx
    refine ⟨pktPriorQMaskDown.set 11 (uint8 (st.priorQInstance + 1)),
      { st with priorQInstance := uint8 (st.priorQInstance + 1),
                mibUploadCtr := uint16 (st.mibUploadCtr + 1) }, ?_, rfl, rfl, rfl, rfl, rfl, rfl⟩
    rw [mibUploadNext_present class_ c0 c1 rest key m st hpresent,
      mibUploadNextSwitch_maskDown _ hidx st]
  · intro class_ c0 c1 rest hidx
    refine ⟨((pktPriorQAttrDown.set 11 st.priorQInstance).set 24
        (uint8 (st.tcontInstance + 2 ^ 8 - 1))).set 28 (uint8 (st.tcontInstance + 2 ^ 8 - 1)),
      { st with tcontInstance := uint8 (st.tcontInstance + 2 ^ 8 - 1),
                mibUploadCtr := uint16 (st.mibUploadCtr + 1) }, ?_, rfl, rfl, rfl⟩
    rw [mibUploadNext_present class_ c0 c1 rest key m st hpresent,
      mibUploadNextSwitch_attrDown _ hidx st]
  · intro class_ c0 c1 rest hidx
    refine ⟨pktPriorQMaskUp.set 11 st.priorQInstance,
      { st with mibUploadCtr := uint16 (st.mibUploadCtr + 1) }, ?_, rfl, rfl, rfl, rfl, rfl, rfl⟩
    rw [mibUploadNext_present class_ c0 c1 rest key m st hpresent,
      mibUploadNextSwitch_maskUp _ hidx st]
  · intro class_ c0 c1 rest hidx
    refine ⟨((pktPriorQAttrUp.set 11 st.priorQInstance).set 24 st.tcontInstance).set 28
        st.tcontInstance,
      { st with mibUploadCtr := uint16 (st.mibUploadCtr + 1) }, ?_, rfl, rfl, rfl, rfl, rfl, rfl⟩
    rw [mibUploadNext_present class_ c0 c1 rest key m st hpresent,
      mibUploadNextSwitch_attrUp _ hidx st]
  · rintro rfl calls hcalls
    have hfull := uploadSteps_full_trajectory
    cases hs : uploadSteps (List.range 67) NewOnuOmciState with
    | none => simp [hs] at hfull
    | some r =>
      obtain ⟨pkts, stf⟩ := r
      simp only [hs, Option.map_some', Option.some.injEq, Prod.mk.injEq,
        decide_eq_true_eq] at hfull
      obtain ⟨-, h2, -⟩ := hfull
      exact ⟨pkts, stf,
        uploadSeq_of_uploadSteps key calls (List.range 67) m NewOnuOmciState stf pkts
          hpresent hcalls hs, h2⟩

/-- Witness for C19: device (0, 1) with a fresh record; the contents 0x00 0x1a .. 0x00 0x1d
(indices 26..29) and the full upload with class 0 and two-byte contents. -/
theorem priorQ_instance_numbering_witness :
    (∃ pkt st', mibUploadNext 0 ⟨0x00, 0x1a, []⟩ ⟨0, 1⟩ (singleton ⟨0, 1⟩ NewOnuOmciState) =
        .ok pkt ((singleton ⟨0, 1⟩ NewOnuOmciState).put ⟨0, 1⟩ st') ∧
      st'.priorQInstance = (0 + 1) % 2 ^ 8 ∧
      pkt[11]? = some st'.priorQInstance ∧ pkt[10]? = some 0x00 ∧
      st'.tcontInstance = 0 ∧ st'.pptpInstance = 1 ∧ st'.uniGInstance = 1) ∧
    (∃ pkt st', mibUploadNext 0 ⟨0x00, 0x1b, []⟩ ⟨0, 1⟩ (singleton ⟨0, 1⟩ NewOnuOmciState) =
        .ok pkt ((singleton ⟨0, 1⟩ NewOnuOmciState).put ⟨0, 1⟩ st') ∧
      st'.priorQInstance = 0 ∧ pkt[11]? = some 0 ∧ pkt[10]? = some 0x00) ∧
    (∃ pkt st', mibUploadNext 0 ⟨0x00, 0x1c, []⟩ ⟨0, 1⟩ (singleton ⟨0, 1⟩ NewOnuOmciState) =
        .ok pkt ((singleton ⟨0, 1⟩ NewOnuOmciState).put ⟨0, 1⟩ st') ∧
      st'.priorQInstance = 0 ∧ pkt[11]? = some 0 ∧ pkt[10]? = some 0x80 ∧
      st'.tcontInstance = 0 ∧ st'.pptpInstance = 1 ∧ st'.uniGInstance = 1) ∧
    (∃ pkt st', mibUploadNext 0 ⟨0x00, 0x1d, []⟩ ⟨0, 1⟩ (singleton ⟨0, 1⟩ NewOnuOmciState) =
        .ok pkt ((singleton ⟨0, 1⟩ NewOnuOmciState).put ⟨0, 1⟩ st') ∧
      st'.priorQInstance = 0 ∧ pkt[11]? = some 0 ∧ pkt[10]? = some 0x80 ∧
      st'.tcontInstance = 0 ∧ st'.pptpInstance = 1 ∧ st'.uniGInstance = 1) ∧
    (∃ pkts stf,
      uploadSeq ⟨0, 1⟩ ((List.range 67).map (fun i => (0, OmciContent.mk 0x00 i [])))
        (singleton ⟨0, 1⟩ NewOnuOmciState) =
        some (pkts, (singleton ⟨0, 1⟩ NewOnuOmciState).put ⟨0, 1⟩ stf) ∧
      ∀ k, 1 ≤ k → k ≤ 8 →
        instanceIdAt pkts (26 + 4 * (k - 1)) = some k ∧
        instanceIdAt pkts (27 + 4 * (k - 1)) = some k ∧
        instanceIdAt pkts (28 + 4 * (k - 1)) = some (0x8000 + k) ∧
        instanceIdAt pkts (29 + 4 * (k - 1)) = some (0x8000 + k)) :=
  ⟨(priorQ_instance_numbering ⟨0, 1⟩ (singleton ⟨0, 1⟩ NewOnuOmciState) NewOnuOmciState
      (by decide)).1 0 0x00 0x1a [] (by decide),
    (priorQ_instance_numbering ⟨0, 1⟩ (singleton ⟨0, 1⟩ NewOnuOmciState) NewOnuOmciState
      (by decide)).2.1 0 0x00 0x1b [] (by decide),
    (priorQ_instance_numbering ⟨0, 1⟩ (singleton ⟨0, 1⟩ NewOnuOmciState) NewOnuOmciState
      (by decide)).2.2.1 0 0x00 0x1c [] (by decide),
    (priorQ_instance_numbering ⟨0, 1⟩ (singleton ⟨0, 1⟩ NewOnuOmciState) NewOnuOmciState
      (by decide)).2.2.2.1 0 0x00 0x1d [] (by decide),
    (priorQ_instance_numbering ⟨0, 1⟩ (singleton ⟨0, 1⟩ NewOnuOmciState) NewOnuOmciState
      (by decide)).2.2.2.2 rfl ((List.range 67).map (fun i => (0, OmciContent.mk 0x00 i []))) (by decide)⟩

/-! ## The port identifier of an incomplete device -/

/-- One handler call and the record of any device: the device was present before, and
afterwards either its lifecycle is `DONE`, or its lifecycle is as before and its port
identifier is as before or 0. -/
theorem step_gemPortId (c : Consts) (call : Call) (m : OnuOmciStateMap) (k : OnuKey)
    (st' : OnuOmciState) (h : (step c call m).map m k = some st') :
    ∃ st, m k = some st ∧
      (st'.state = istate.DONE ∨
        (st'.state = st.state ∧ (st'.gemPortId = st.gemPortId ∨ st'.gemPortId = 0))) := by
  by_cases hk : k = call.key
  case neg =>
    rw [step_other c call m k hk] at h
    exact ⟨st', h, Or.inr ⟨rfl, Or.inl rfl⟩⟩
  case pos =>
    obtain ⟨t, class_, content, key⟩ := call
    simp only at hk
    subst hk
    cases t with
    | MibReset =>
      simp only [step, Handlers] at h
      cases hm : m k with
      | none =>
        rw [mibReset_absent class_ content k m hm] at h
        simp [Result.map, hm] at h
      | some st =>
        rw [mibReset_present class_ content k m st hm] at h
        simp only [Result.map, put_same, Option.some.injEq] at h
        subst h
        exact ⟨st, rfl, Or.inr ⟨rfl, Or.inr rfl⟩⟩
    | MibUploadNext =>
      simp only [step, Handlers] at h
      obtain ⟨c0, c1, rest⟩ := content
      cases hm : m k with
      | none => simp [mibUploadNext, hm, Result.map] at h
      | some st =>
        rw [mibUploadNext_present class_ c0 c1 rest k m st hm] at h
        cases hsw : mibUploadNextSwitch (BigEndianUint16 c0 c1) st with
        | none =>
          simp only [hsw, Result.map, put_same, Option.some.injEq] at h
          subst h
          exact ⟨st, rfl, Or.inr ⟨rfl, Or.inl rfl⟩⟩
        | some p =>
          obtain ⟨pkt, st1⟩ := p
          simp only [hsw, Result.map, put_same, Option.some.injEq] at h
          subst h
          obtain ⟨h1, h2, -, -⟩ := mibUploadNextSwitch_frame hsw
          exact ⟨st, rfl, Or.inr ⟨h1, Or.inl h2⟩⟩
    | Create =>
      simp only [step, Handlers] at h
      by_cases hc : class_ = c.GEMPortNetworkCTP
      · subst hc
        cases hm : m k with
        | none =>
          rw [create_gem_absent c content k m hm] at h
          simp [Result.map, hm] at h
        | some st =>
          obtain ⟨b0, b1, rest⟩ := content
          rw [create_gem_present c b0 b1 rest k m st hm] at h
          simp only [Result.map, put_same, Option.some.injEq] at h
          subst h
          exact ⟨st, rfl, Or.inl rfl⟩
      · rw [create_other c class_ content k m hc] at h
        exact ⟨st', h, Or.inr ⟨rfl, Or.inl rfl⟩⟩
    | _ => exact ⟨st', h, Or.inr ⟨rfl, Or.inl rfl⟩⟩

/-- The property "an `INCOMPLETE` device has port identifier 0" is kept by every run. -/
theorem runCalls_incomplete_gemPortId (c : Consts) :
    ∀ (calls : List Call) (m : OnuOmciStateMap),
      (∀ k st, m k = some st → st.state = istate.INCOMPLETE → st.gemPortId = 0) →
      ∀ k st, runCalls c calls m k = some st → st.state = istate.INCOMPLETE →
        st.gemPortId = 0
  | [], _, hinv => hinv
  | call :: calls, m, hinv => by
    apply runCalls_incomplete_gemPortId c calls ((step c call m).map m)
    intro k st' hk hinc
    obtain ⟨st, hm, hcase⟩ := step_gemPortId c call m k st' hk
    rcases hcase with hd | ⟨hs, hg | hg⟩
    · rw [hinc] at hd; cases hd
    · rw [hg]; exact hinv k st hm (by rw [← hs]; exact hinc)
    · exact hg

/-- C20: in every map reached from a map of fresh records (`NewOnuOmciState`) by a finite
sequence of calls of the registered handlers, every device whose lifecycle is `INCOMPLETE`
has `gemPortId = 0`. -/
theorem incomplete_gemPortId_zero (c : Consts) (m : OnuOmciStateMap)
    (hinit : ∀ k st, m k = some st → st = NewOnuOmciState)
    (calls : List Call) (k : OnuKey) (st : OnuOmciState)
    (hk : runCalls c calls m k = some st) (hinc : st.state = istate.INCOMPLETE) :
    st.gemPortId = 0 :=
  runCalls_incomplete_gemPortId c calls m
    (fun k' s hs _ => by rw [hinit k' s hs]; rfl) k st hk hinc

/-- Witness for C20: device (0, 1) starts fresh and receives a get-next (content
0x00 0x09), a create for another class (5, content 0x00 0x0b) and a reset; (0, 2) receives
a create for the class `GEMPortNetworkCTP` (here 268). Device (0, 1) is still `INCOMPLETE`
and its port identifier is 0. -/
theorem incomplete_gemPortId_zero_witness :
    runCalls ⟨268, 67⟩
      [⟨OmciMsgType.MibUploadNext, 0, ⟨0x00, 0x09, []⟩, ⟨0, 1⟩⟩,
       ⟨OmciMsgType.Create, 5, ⟨0x00, 0x0b, []⟩, ⟨0, 1⟩⟩,
       ⟨OmciMsgType.Create, 268, ⟨0x00, 0x0b, []⟩, ⟨0, 2⟩⟩,
       ⟨OmciMsgType.MibReset, 0, ⟨0x00, 0x00, []⟩, ⟨0, 1⟩⟩] twoFresh ⟨0, 1⟩ = some NewOnuOmciState ∧
    NewOnuOmciState.state = istate.INCOMPLETE ∧
    NewOnuOmciState.gemPortId = 0 :=
  ⟨by decide, by decide,
    incomplete_gemPortId_zero ⟨268, 67⟩ twoFresh
      (fun k st h => by
        unfold twoFresh OnuOmciStateMap.put singleton at h
        split at h
        · exact (Option.some.inj h).symm
        · split at h
          · exact (Option.some.inj h).symm
          · cases h)
      [⟨OmciMsgType.MibUploadNext, 0, ⟨0x00, 0x09, []⟩, ⟨0, 1⟩⟩,
       ⟨OmciMsgType.Create, 5, ⟨0x00, 0x0b, []⟩, ⟨0, 1⟩⟩,
       ⟨OmciMsgType.Create, 268, ⟨0x00, 0x0b, []⟩, ⟨0, 2⟩⟩,
       ⟨OmciMsgType.MibReset, 0, ⟨0x00, 0x00, []⟩, ⟨0, 1⟩⟩] ⟨0, 1⟩ NewOnuOmciState (by decide) (by decide)⟩

end OmciSim
